import Mathlib

/-!
# Complaint lifecycle of the hostel complaint backend

A shallow embedding of `src/controllers/complaintController.js`
(`updateComplaintStatus`, `submitFeedback`, `giveFeedback`,
`getComplaintTimeline`, `adminGetTimeline`, `createComplaint`) and of
`src/controllers/notificationController.js` (`createNotification`), and of the
`year` validator of `src/models/User.js`.

Documents are records, the collections are finite maps from identifiers to
documents, and a request handler is a function from the collections and the
request to the new collections and the HTTP response. `new Date()` is the
argument `now`. `document.save()` stores the document exactly as the handler
left it: the schema file `models/Complaint.js` is not among the sources, so no
schema hook is applied on save.

Three failures are part of the embedding. The save of a notification may
fail, which `createNotification` absorbs. `Complaint.create` may raise a
validation error, which the `catch` block of `createComplaint` answers with
400; the schema is an argument of `createComplaint`. `Complaint.findById` in
`submitFeedback`, which does not check the format of the id, throws on an
ill-formed id, which its `catch` block answers with 500. Other lookups and
saves are taken not to throw.

`updateComplaintStatus` populates the student of the saved complaint from the
user collection of the collections before it builds the notification. The
handlers that only query users take the user collection as the argument
`users`. The model methods `complaint.addFeedback` and
`Notification.createNotification`, called by `giveFeedback`, the handler
mounted on the feedback route, are not among the sources and are modelled from
the specification.
-/

namespace HCM

/-! ## Data model -/

/-- One element of `complaint.statusHistory`. The handler
`updateComplaintStatus` pushes `status`, `note`, `assignedTo` and `timestamp`
only, so `updatedBy` is optional. -/
structure HistoryEntry where
  status : String
  note : String
  assignedTo : Option String
  timestamp : Nat
  updatedBy : Option String
  deriving DecidableEq, Repr

/-- The value of `complaint.feedback` written by `submitFeedback`. -/
structure Feedback where
  isSatisfied : Bool
  comment : String
  timestamp : Nat
  deriving DecidableEq, Repr

/-- A complaint document; its `_id` is the key under which it is stored. -/
structure Complaint where
  student : String
  category : String
  subCategory : Option String
  description : String
  currentStatus : String
  assignedTo : Option String
  statusHistory : List HistoryEntry
  feedback : Option Feedback
  isReopened : Bool
  isLockedForUpdates : Bool
  createdAt : Nat
  deriving DecidableEq, Repr

/-- A staff record of the member directory, as read by
`updateComplaintStatus`. -/
structure Member where
  category : String
  isActive : Bool
  deriving DecidableEq, Repr

/-- A user document, as far as the handlers read it. -/
structure User where
  id : String
  name : String
  role : String
  deriving DecidableEq, Repr

/-- The query `User.findById(id)` on the user collection. -/
def findUser (users : List User) (id : String) : Option User :=
  users.find? (fun u => u.id == id)

/-- The query `User.find` for the users whose role is 'admin'. -/
def findAdmins (users : List User) : List User :=
  users.filter (fun u => u.role == "admin")

/-- The argument object of `createNotification`. The recipient is optional:
`updateComplaintStatus` passes the populated `complaint.student`, which is
`null` when the user document of the student no longer exists. -/
structure Notification where
  type : String
  recipient : Option String
  sender : String
  message : String
  relatedId : String
  onModel : String
  deriving DecidableEq, Repr

/-- What the handlers take from outside the repository:
`mongoose.Types.ObjectId.isValid`, and whether `notification.save()` goes
through for a given notification. -/
structure Env where
  isValidObjectId : String → Bool
  notificationSaves : Notification → Bool

/-- The collections. `users` is the user collection as `complaint.populate`
reads it in `updateComplaintStatus`. `notificationLog` lists every call of
`createNotification`, oldest first, with whether its save went through. -/
structure World where
  complaints : String → Option Complaint
  members : String → Option Member
  users : List User
  notificationLog : List (Notification × Bool)

/-- The HTTP response of a handler: `res.json(data)` is `json 200 data`,
`res.status(code).json(message)` is `fail code message`. -/
inductive Response where
  | json (code : Nat) (data : Complaint)
  | fail (code : Nat) (message : String)
  deriving DecidableEq, Repr

/-- The body, parameters and authenticated user of a status update request. -/
structure StatusRequest where
  id : String
  status : String
  note : Option String
  memberId : Option String
  user : String
  deriving DecidableEq, Repr

/-- The body, parameters and authenticated user of a feedback request. -/
structure FeedbackRequest where
  id : String
  isSatisfied : Bool
  comment : String
  user : String
  deriving DecidableEq, Repr

/-! ## Helpers of the embedding -/

/-- JavaScript truthiness of an optional string: `undefined` and the empty
string are falsy. -/
def truthy : Option String → Bool
  | none => false
  | some s => s != ""

/-- The expression `note || ''`. -/
def orEmpty (note : Option String) : String :=
  if truthy note then note.getD "" else ""

/-- The effect of `complaint.save()` on the complaint collection. -/
def World.saveComplaint (w : World) (id : String) (c : Complaint) : World :=
  { w with complaints := fun k => if k = id then some c else w.complaints k }

/-- The function `createNotification`: it tries to save the notification and
returns the saved document, or `null` when saving throws. -/
def createNotification (env : Env) (w : World) (data : Notification) :
    World × Option Notification :=
  if env.notificationSaves data then
    ({ w with notificationLog := w.notificationLog ++ [(data, true)] }, some data)
  else
    ({ w with notificationLog := w.notificationLog ++ [(data, false)] }, none)

/-! ## Messages of the responses -/

def msgInvalidComplaintId : String := "Invalid complaint ID format"
def msgComplaintNotFound : String := "Complaint not found"
def msgLocked : String :=
  "This complaint has been closed after student satisfaction and can no longer be updated."
def msgInvalidStatus : String :=
  "Invalid status. Must be one of: Received, In Progress, Resolved, Closed"
def msgInvalidMemberId : String := "Invalid member ID format"
def msgInvalidMember : String := "Invalid or inactive member"
def msgCategoryMismatch : String :=
  "Assigned member must belong to the same category/subcategory"
def msgNotOwner : String := "Not authorized to submit feedback for this complaint"
def msgNotResolved : String := "Feedback can only be submitted for resolved complaints"
def msgDuplicateFeedback : String := "Feedback already submitted for this complaint"
def msgFeedbackFailed : String := "Failed to submit feedback"

/-! ## Handlers -/

/-- The constant `validStatuses` of `updateComplaintStatus`. -/
def validStatuses : List String := ["Received", "In Progress", "Resolved", "Closed"]

/-- The expression `validCategory` of `updateComplaintStatus`. -/
def validCategory (member : Member) (complaint : Complaint) : Bool :=
  member.category == complaint.category ||
    (complaint.category == "Maintenance" && some member.category == complaint.subCategory)

/-- The block "Handle reopening and feedback clearing" of
`updateComplaintStatus`. -/
def applyStatusEffects (status oldStatus : String) (complaint : Complaint) : Complaint :=
  if status == "Resolved" then
    { complaint with feedback := none, isReopened := false }
  else if status == "Received" && oldStatus == "Resolved" then
    { complaint with isReopened := true }
  else complaint

/-- The in-memory mutation of `updateComplaintStatus` from "Update status" to
"Handle reopening and feedback clearing", on the complaint after the optional
assignment. -/
def applyStatusUpdate (req : StatusRequest) (now : Nat) (complaint : Complaint) : Complaint :=
  let oldStatus := complaint.currentStatus
  let complaint := { complaint with currentStatus := req.status }
  let complaint := { complaint with
    statusHistory := complaint.statusHistory ++
      [{ status := req.status, note := orEmpty req.note,
         assignedTo := complaint.assignedTo, timestamp := now, updatedBy := none }] }
  applyStatusEffects req.status oldStatus complaint

/-- The value of `complaint.student` after
`complaint.populate` in `updateComplaintStatus`: the user document of the
student, or `null` when it no longer exists. -/
def populateStudent (w : World) (complaint : Complaint) : Option User :=
  findUser w.users complaint.student

/-- The notification built by `updateComplaintStatus` for the student, from
the saved and populated complaint; a populated recipient is stored as its id. -/
def statusNotification (w : World) (req : StatusRequest) (complaint : Complaint) :
    Notification :=
  { type := "complaint", recipient := (populateStudent w complaint).map (fun u => u.id),
    sender := req.user,
    message := "Your complaint \"" ++ complaint.description ++ "\" has been " ++ req.status,
    relatedId := req.id, onModel := "Complaint" }

/-- The end of `updateComplaintStatus`: the mutation, `complaint.save()`, the
population of the response, the notification to the student and the
response. -/
def commitStatus (env : Env) (w : World) (req : StatusRequest) (now : Nat)
    (complaint : Complaint) : World × Response :=
  let complaint := applyStatusUpdate req now complaint
  let w := w.saveComplaint req.id complaint
  let w := (createNotification env w (statusNotification w req complaint)).1
  (w, Response.json 200 complaint)

/-- The handler `updateComplaintStatus` (admin: update complaint status). -/
def updateComplaintStatus (env : Env) (w : World) (req : StatusRequest) (now : Nat) :
    World × Response :=
  if !env.isValidObjectId req.id then (w, Response.fail 400 msgInvalidComplaintId)
  else
    match w.complaints req.id with
    | none => (w, Response.fail 404 msgComplaintNotFound)
    | some complaint =>
      if complaint.isLockedForUpdates then (w, Response.fail 403 msgLocked)
      else if !validStatuses.contains req.status then (w, Response.fail 400 msgInvalidStatus)
      else if truthy req.memberId then
        let memberId := req.memberId.getD ""
        if !env.isValidObjectId memberId then (w, Response.fail 400 msgInvalidMemberId)
        else
          match w.members memberId with
          | none => (w, Response.fail 400 msgInvalidMember)
          | some member =>
            if !member.isActive then (w, Response.fail 400 msgInvalidMember)
            else if !validCategory member complaint then
              (w, Response.fail 400 msgCategoryMismatch)
            else
              commitStatus env w req now { complaint with assignedTo := some memberId }
      else commitStatus env w req now complaint

/-- The object assigned to `complaint.feedback` by `submitFeedback`. -/
def newFeedback (req : FeedbackRequest) (now : Nat) : Feedback :=
  { isSatisfied := req.isSatisfied, comment := req.comment, timestamp := now }

/-- The handler `submitFeedback`. It does not check the format of the id:
`Complaint.findById` throws a cast error on an id that is not a well-formed
ObjectId and the `catch` block answers 500. -/
def submitFeedback (env : Env) (w : World) (req : FeedbackRequest) (now : Nat) :
    World × Response :=
  if !env.isValidObjectId req.id then (w, Response.fail 500 msgFeedbackFailed)
  else
    match w.complaints req.id with
    | none => (w, Response.fail 404 msgComplaintNotFound)
    | some complaint =>
      if complaint.student != req.user then (w, Response.fail 403 msgNotOwner)
      else if complaint.currentStatus != "Resolved" then (w, Response.fail 400 msgNotResolved)
      else if complaint.feedback.isSome then (w, Response.fail 400 msgDuplicateFeedback)
      else
        let complaint := { complaint with feedback := some (newFeedback req now) }
        (w.saveComplaint req.id complaint, Response.json 200 complaint)

/-- The checks of `updateComplaintStatus` up to and including the assignment,
as a function of `ObjectId.isValid`: the failure response, or the complaint
that goes on to "Update status". -/
def statusChecks (isValid : String → Bool) (w : World) (req : StatusRequest) :
    Except (Nat × String) Complaint :=
  if !isValid req.id then Except.error (400, msgInvalidComplaintId)
  else
    match w.complaints req.id with
    | none => Except.error (404, msgComplaintNotFound)
    | some complaint =>
      if complaint.isLockedForUpdates then Except.error (403, msgLocked)
      else if !validStatuses.contains req.status then Except.error (400, msgInvalidStatus)
      else if truthy req.memberId then
        let memberId := req.memberId.getD ""
        if !isValid memberId then Except.error (400, msgInvalidMemberId)
        else
          match w.members memberId with
          | none => Except.error (400, msgInvalidMember)
          | some member =>
            if !member.isActive then Except.error (400, msgInvalidMember)
            else if !validCategory member complaint then
              Except.error (400, msgCategoryMismatch)
            else Except.ok { complaint with assignedTo := some memberId }
      else Except.ok complaint

/-! ## Sequences of calls -/

/-- One call of a mutating handler, with the time at which it runs. -/
inductive Call where
  | update (req : StatusRequest) (now : Nat)
  | feedback (req : FeedbackRequest) (now : Nat)
  deriving DecidableEq, Repr

/-- Runs one call. -/
def Call.run (env : Env) (w : World) : Call → World × Response
  | Call.update req now => updateComplaintStatus env w req now
  | Call.feedback req now => submitFeedback env w req now

/-- Runs the calls from left to right and returns the final collections. -/
def runCalls (env : Env) (w : World) : List Call → World
  | [] => w
  | call :: rest => runCalls env (call.run env w).1 rest

/-- Whether a response is a success response. -/
def Response.isSuccess : Response → Bool
  | Response.json _ _ => true
  | Response.fail _ _ => false

/-- Whether the call is a status update of the complaint `id`. -/
def Call.isUpdateOf (id : String) : Call → Bool
  | Call.update req _ => req.id == id
  | Call.feedback _ _ => false

/-- Whether, running the calls from left to right, at least one status update
of the complaint `id` succeeds. -/
def someUpdateSucceeds (env : Env) (w : World) (id : String) : List Call → Bool
  | [] => false
  | call :: rest =>
    (call.isUpdateOf id && (call.run env w).2.isSuccess) ||
      someUpdateSucceeds env (call.run env w).1 id rest

/-- The status of the last entry of `statusHistory` is `currentStatus`. -/
def statusMatchesHistory (c : Complaint) : Prop :=
  c.statusHistory.getLast?.map (fun e => e.status) = some c.currentStatus

instance (c : Complaint) : Decidable (statusMatchesHistory c) := by
  unfold statusMatchesHistory; infer_instance

/-! ## Timelines -/

/-- One element of the timeline sent to the client. `assignedTo` is the member
document found for the entry, `updatedBy` the user document; the admin
timeline has no `updatedBy` field, which is `none` here. -/
structure TimelineEntry where
  status : String
  note : String
  timestamp : Nat
  assignedTo : Option Member
  updatedBy : Option User
  deriving DecidableEq, Repr

/-- The `data` object of the student timeline response. -/
structure StudentTimeline where
  timeline : List TimelineEntry
  currentAssignedTo : Option Member
  student : Option User
  deriving DecidableEq, Repr

/-- The HTTP response of a read handler with payload `α`. -/
inductive Reply (α : Type) where
  | ok (code : Nat) (data : α)
  | fail (code : Nat) (message : String)
  deriving DecidableEq, Repr

/-- The comparator `new Date(a.timestamp) - new Date(b.timestamp)` of
`timeline.sort`, read as "a is not after b". -/
def notAfter (a b : TimelineEntry) : Prop := a.timestamp ≤ b.timestamp

instance : DecidableRel notAfter := fun a b => by
  unfold notAfter; infer_instance

instance : IsTotal TimelineEntry notAfter := ⟨fun a b => Nat.le_total a.timestamp b.timestamp⟩

instance : IsTrans TimelineEntry notAfter := ⟨fun _ _ _ h1 h2 => Nat.le_trans h1 h2⟩

/-- The call `timeline.sort(...)` of `getComplaintTimeline`: a stable sort by
ascending timestamp. -/
def sortTimeline (timeline : List TimelineEntry) : List TimelineEntry :=
  timeline.insertionSort notAfter

/-- The callback of `statusHistory.map` in `getComplaintTimeline`. -/
def studentEntry (users : List User) (w : World) (entry : HistoryEntry) : TimelineEntry :=
  { status := entry.status, note := entry.note, timestamp := entry.timestamp,
    assignedTo := entry.assignedTo.bind w.members,
    updatedBy := entry.updatedBy.bind (findUser users) }

/-- The callback of `statusHistory.map` in `adminGetTimeline`. -/
def adminEntry (w : World) (entry : HistoryEntry) : TimelineEntry :=
  { status := entry.status, note := entry.note, timestamp := entry.timestamp,
    assignedTo := entry.assignedTo.bind w.members, updatedBy := none }

/-- The entry pushed by both timeline handlers when the timeline is empty;
`complaint.assignedTo` is populated there. -/
def initialEntry (w : World) (complaint : Complaint) : TimelineEntry :=
  { status := complaint.currentStatus, note := "Complaint created",
    timestamp := complaint.createdAt, assignedTo := complaint.assignedTo.bind w.members,
    updatedBy := none }

/-- The block "Add initial entry if no history" of both timeline handlers. -/
def addInitialEntry (w : World) (complaint : Complaint) (timeline : List TimelineEntry) :
    List TimelineEntry :=
  if timeline.length == 0 then timeline ++ [initialEntry w complaint] else timeline

/-- The handler `getComplaintTimeline` (student: get complaint timeline); the
complaint is looked up by `_id` and `student`. -/
def getComplaintTimeline (users : List User) (w : World) (id user : String) :
    Reply StudentTimeline :=
  match (w.complaints id).filter (fun c => c.student == user) with
  | none => Reply.fail 404 msgComplaintNotFound
  | some complaint =>
    let timeline := complaint.statusHistory.map (studentEntry users w)
    let timeline := addInitialEntry w complaint timeline
    let timeline := sortTimeline timeline
    Reply.ok 200 { timeline := timeline,
                   currentAssignedTo := complaint.assignedTo.bind w.members,
                   student := findUser users complaint.student }

/-- The handler `adminGetTimeline` (admin: get complaint timeline). -/
def adminGetTimeline (env : Env) (w : World) (id : String) : Reply (List TimelineEntry) :=
  if !env.isValidObjectId id then Reply.fail 400 msgInvalidComplaintId
  else
    match w.complaints id with
    | none => Reply.fail 404 msgComplaintNotFound
    | some complaint =>
      let timeline := complaint.statusHistory.map (adminEntry w)
      let timeline := addInitialEntry w complaint timeline
      Reply.ok 200 timeline

/-! ## Feedback through the model method -/

/-- The argument object of the static `Notification.createNotification` used
by `giveFeedback`. -/
structure Notice where
  recipient : String
  type : String
  title : String
  message : String
  relatedTo : String
  onModel : String
  deriving DecidableEq, Repr

/-- Modelled from the spec: the static `Notification.createNotification` of
`models/Notification.js`, which is not among the sources. It is the
notification sink of the spec: one delivery attempt, whose failure is logged
and never propagated to the caller. The log lists the attempts, oldest first,
with whether the delivery went through. -/
def deliver (delivers : Notice → Bool) (log : List (Notice × Bool)) (notice : Notice) :
    List (Notice × Bool) :=
  log ++ [(notice, delivers notice)]

/-- Modelled from the spec: the effect of `recordFeedback` on the complaint,
for the method `complaint.addFeedback` of `models/Complaint.js`, which is not
among the sources: the feedback is set, the complaint is locked on
satisfaction and marked reopened on dissatisfaction, the status stays. -/
def recordedFeedback (complaint : Complaint) (isSatisfied : Bool) (comment : String)
    (now : Nat) : Complaint :=
  let complaint := { complaint with
    feedback := some { isSatisfied := isSatisfied, comment := comment, timestamp := now } }
  if isSatisfied then { complaint with isLockedForUpdates := true }
  else { complaint with isReopened := true }

/-- Modelled from the spec: the method `complaint.addFeedback` of
`models/Complaint.js`, which is not among the sources. It is `recordFeedback`
of the spec on a complaint already known to belong to the caller: it requires
status "Resolved" and no feedback, sets the feedback, locks the complaint on
satisfaction and marks it reopened on dissatisfaction, leaving the status. -/
def addFeedback (complaint : Complaint) (isSatisfied : Bool) (comment : String) (now : Nat) :
    Except String Complaint :=
  if complaint.currentStatus != "Resolved" then Except.error "InvalidState"
  else if complaint.feedback.isSome then Except.error "DuplicateFeedback"
  else Except.ok (recordedFeedback complaint isSatisfied comment now)

/-- The notification built in the loop of `giveFeedback`. -/
def reopenedNotice (admin : User) (userName complaintId : String) : Notice :=
  { recipient := admin.id, type := "complaint_status", title := "Complaint Reopened",
    message := "Complaint by " ++ userName ++ " was reopened", relatedTo := complaintId,
    onModel := "Complaint" }

/-- What a run of `giveFeedback` leaves: the collections, the response and the
delivery attempts it made. -/
structure FeedbackOutcome where
  world : World
  response : Response
  deliveries : List (Notice × Bool)

/-- The handler `giveFeedback` (student: feedback on resolved complaint);
`userName` is `req.user.name`. An error thrown by `addFeedback` reaches the
`catch` block, which answers 500. -/
def giveFeedback (delivers : Notice → Bool) (users : List User) (w : World)
    (req : FeedbackRequest) (userName : String) (now : Nat) : FeedbackOutcome :=
  match (w.complaints req.id).filter (fun c => c.student == req.user) with
  | none => { world := w, response := Response.fail 404 msgComplaintNotFound, deliveries := [] }
  | some complaint =>
    match addFeedback complaint req.isSatisfied req.comment now with
    | Except.error _ =>
      { world := w, response := Response.fail 500 "Error giving feedback", deliveries := [] }
    | Except.ok complaint =>
      let w := w.saveComplaint req.id complaint
      let deliveries :=
        if !req.isSatisfied then
          (findAdmins users).foldl
            (fun log admin => deliver delivers log (reopenedNotice admin userName req.id)) []
        else []
      { world := w, response := Response.json 200 complaint, deliveries := deliveries }

/-! ## Creation -/

/-- The body of a creation request. -/
structure ComplaintBody where
  category : Option String
  subCategory : Option String
  description : Option String
  deriving DecidableEq, Repr

/-- The characters removed by `String.prototype.trim`: the white space and
line terminator code points of ECMAScript. -/
def jsWhitespace (c : Char) : Bool :=
  [9, 10, 11, 12, 13, 32, 160, 5760, 8232, 8233, 8239, 8287, 12288, 65279].contains c.toNat ||
    (8192 ≤ c.toNat && c.toNat ≤ 8202)

/-- The method `String.prototype.trim`. -/
def jsTrim (s : String) : String :=
  String.mk (((s.toList.dropWhile jsWhitespace).reverse.dropWhile jsWhitespace).reverse)

/-- Modelled from the spec: the defaults that `Complaint.create` gives to the
fields the handler does not pass (the schema `models/Complaint.js` is not
among the sources): status "Received", no assignee, no history entry, no
feedback, not reopened, not locked. -/
def newComplaint (student category : String) (subCategory : Option String)
    (description : String) (now : Nat) : Complaint :=
  { student := student, category := category, subCategory := subCategory,
    description := description, currentStatus := "Received", assignedTo := none,
    statusHistory := [], feedback := none, isReopened := false,
    isLockedForUpdates := false, createdAt := now }

def msgCategoryRequired : String := "Category is required"
def msgSubCategoryRequired : String := "Sub-category is required for Maintenance complaints"
def msgDescriptionRequired : String := "Description is required"
def msgStudentNotFound : String := "Student not found"

/-- The notification sent to an admin by `createComplaint`. -/
def newComplaintNotification (admin : User) (sender complaintId : String)
    (complaint : Complaint) : Notification :=
  { type := "complaint", recipient := some admin.id, sender := sender,
    message := "New complaint received: " ++ complaint.description,
    relatedId := complaintId, onModel := "Complaint" }

/-- The handler `createComplaint` (student: create complaint); `studentId` is
`req.user._id` and `newId` the `_id` given to the new document. The schema of
`models/Complaint.js` is not among the sources: `schema` gives, for a document
passed to `Complaint.create`, the message of the `ValidationError` it raises,
or `none` when it accepts the document; the `catch` block turns the error into
a 400 response. -/
def createComplaint (env : Env) (schema : Complaint → Option String) (users : List User)
    (w : World) (body : ComplaintBody) (studentId newId : String) (now : Nat) :
    World × Response :=
  if !truthy body.category then (w, Response.fail 400 msgCategoryRequired)
  else if body.category == some "Maintenance" && !truthy body.subCategory then
    (w, Response.fail 400 msgSubCategoryRequired)
  else if !truthy body.description || jsTrim (body.description.getD "") == "" then
    (w, Response.fail 400 msgDescriptionRequired)
  else
    match findUser users studentId with
    | none => (w, Response.fail 404 msgStudentNotFound)
    | some _ =>
      let complaint := newComplaint studentId (body.category.getD "") body.subCategory
        (jsTrim (body.description.getD "")) now
      match schema complaint with
      | some message => (w, Response.fail 400 message)
      | none =>
        let w := w.saveComplaint newId complaint
        let w := (findAdmins users).foldl
          (fun w admin =>
            (createNotification env w
              (newComplaintNotification admin studentId newId complaint)).1) w
        (w, Response.json 201 complaint)

/-! ## The user schema -/

/-- The constant `COURSE_LABEL_TO_KEY` of `models/User.js`. -/
def COURSE_LABEL_TO_KEY : List (String × String) :=
  [("B.Tech", "BTECH"), ("Diploma", "DIPLOMA"), ("Pharmacy", "PHARMACY"), ("Degree", "DEGREE")]

/-- The expression `COURSE_LABEL_TO_KEY[this.course]`; a missing course and a
label that is not an own key of the object give no course key. -/
def courseKey (course : Option String) : Option String :=
  course.bind (fun label => COURSE_LABEL_TO_KEY.lookup label)

/-- The `validator` function of the `year` path of `userSchema`; `role` and
`course` are `this.role` and `this.course`, and the year is a finite number. -/
def yearValidator (role : String) (course : Option String) (v : ℚ) : Bool :=
  if role != "student" then true
  else
    match courseKey course with
    | some "BTECH" => decide (v ≥ 1) && decide (v ≤ 4)
    | some "DIPLOMA" => decide (v ≥ 1) && decide (v ≤ 3)
    | some "PHARMACY" => decide (v ≥ 1) && decide (v ≤ 4)
    | some "DEGREE" => decide (v ≥ 1) && decide (v ≤ 3)
    | _ => false

/-! ## Sample data -/

/-- An environment in which identifiers of two characters are well formed and
every notification is saved. -/
def sampleEnv : Env :=
  { isValidObjectId := fun s => s.length == 2, notificationSaves := fun _ => true }

/-- A resolved, unlocked Maintenance/Electrical complaint without feedback. -/
def sampleComplaint : Complaint :=
  { student := "s1", category := "Maintenance", subCategory := some "Electrical",
    description := "fan", currentStatus := "Resolved", assignedTo := none,
    statusHistory := [], feedback := none, isReopened := false,
    isLockedForUpdates := false, createdAt := 0 }

/-- A student and two admins. -/
def sampleUsers : List User :=
  [{ id := "s1", name := "Asha", role := "student" },
   { id := "a1", name := "Ravi", role := "admin" },
   { id := "a2", name := "Mina", role := "admin" }]

/-- Collections with the sample complaint `c1`, a locked copy `c2`, an active
electrician `m1`, an inactive electrician `m2`, an active cook `m3` and the
sample users. -/
def sampleWorld : World :=
  { complaints := fun k =>
      if k = "c1" then some sampleComplaint
      else if k = "c2" then some { sampleComplaint with isLockedForUpdates := true }
      else none,
    members := fun k =>
      if k = "m1" then some { category := "Electrical", isActive := true }
      else if k = "m2" then some { category := "Electrical", isActive := false }
      else if k = "m3" then some { category := "Food", isActive := true }
      else none,
    users := sampleUsers,
    notificationLog := [] }

/-- A successful update of `c1`, a feedback on it, a rejected update of it and
an update of the locked complaint `c2`. -/
def sampleCalls : List Call :=
  [Call.update { id := "c1", status := "In Progress", note := none,
                 memberId := some "m1", user := "a1" } 1,
   Call.feedback { id := "c1", isSatisfied := false, comment := "no", user := "s1" } 2,
   Call.update { id := "c1", status := "Done", note := none, memberId := none,
                 user := "a1" } 3,
   Call.update { id := "c2", status := "Closed", note := none, memberId := none,
                 user := "a1" } 4]

/-- A request to move `c1` to "In Progress" and assign the electrician `m1`. -/
def sampleAssign : StatusRequest :=
  { id := "c1", status := "In Progress", note := none, memberId := some "m1", user := "a1" }

/-- A request to move `c1` to "In Progress" and assign the cook `m3`. -/
def sampleMismatch : StatusRequest :=
  { id := "c1", status := "In Progress", note := none, memberId := some "m3", user := "a1" }

/-- A request to move `c1` to "In Progress" without a memberId. -/
def sampleProgress : StatusRequest :=
  { id := "c1", status := "In Progress", note := none, memberId := none, user := "a1" }

/-- The owner of `c1` reports satisfaction. -/
def sampleSatisfied : FeedbackRequest :=
  { id := "c1", isSatisfied := true, comment := "thanks", user := "s1" }

/-- The owner of `c1` reports dissatisfaction. -/
def sampleDissatisfied : FeedbackRequest :=
  { id := "c1", isSatisfied := false, comment := "still broken", user := "s1" }

/-- A request to move `c1` back to "Received" without a memberId. -/
def sampleReopen : StatusRequest :=
  { id := "c1", status := "Received", note := some "again", memberId := none, user := "a1" }

/-- A request to move `c1` from "Resolved" to "Closed" without a memberId. -/
def sampleClose : StatusRequest :=
  { id := "c1", status := "Closed", note := none, memberId := some "", user := "a1" }

/-- A complaint whose two history entries are stored out of timestamp order. -/
def sampleBackfilled : Complaint :=
  { sampleComplaint with
    currentStatus := "In Progress",
    statusHistory :=
      [{ status := "In Progress", note := "started", assignedTo := some "m1", timestamp := 5,
         updatedBy := none },
       { status := "Received", note := "filed", assignedTo := none, timestamp := 3,
         updatedBy := none }] }

/-- The sample collections with the complaint `c3` stored out of order. -/
def sampleTimelineWorld : World :=
  { sampleWorld with
    complaints := fun k => if k = "c3" then some sampleBackfilled else sampleWorld.complaints k }

/-- The sample environment with a notification store that rejects every save. -/
def sampleFailingEnv : Env :=
  { isValidObjectId := sampleEnv.isValidObjectId, notificationSaves := fun _ => false }

/-- A delivery that fails for the admin `a1` and goes through for the others. -/
def sampleDelivers (notice : Notice) : Bool := notice.recipient != "a1"

/-- The owner of the locked complaint `c2` reports satisfaction. -/
def sampleLockedFeedback : FeedbackRequest :=
  { id := "c2", isSatisfied := true, comment := "thanks", user := "s1" }

/-- A Food complaint without subCategory whose description has blanks around it. -/
def sampleBody : ComplaintBody :=
  { category := some "Food", subCategory := none, description := some "  cold rice \n" }

/-- A schema that accepts every complaint document. -/
def sampleSchema (_ : Complaint) : Option String := none

/-- A feedback request whose id is not a well-formed ObjectId. -/
def sampleIllFormed : FeedbackRequest :=
  { id := "not-an-id", isSatisfied := true, comment := "thanks", user := "s1" }

/-- The sample collections after every user document has been deleted. -/
def sampleOrphanWorld : World := { sampleWorld with users := [] }

/-- A resolved complaint locked by the satisfied feedback of its student. -/
def sampleClosed : Complaint :=
  { sampleComplaint with
    feedback := some { isSatisfied := true, comment := "fixed", timestamp := 4 },
    isLockedForUpdates := true }

/-- The sample collections with the locked complaint `c4`. -/
def sampleClosedWorld : World :=
  { sampleWorld with
    complaints := fun k => if k = "c4" then some sampleClosed else sampleWorld.complaints k }

/-- A schema that accepts only the categories named in the data model. -/
def sampleStrictSchema (complaint : Complaint) : Option String :=
  if ["Maintenance", "Food", "Security"].contains complaint.category then none
  else some "Complaint validation failed"

/-- A request with a category outside the enumeration of the strict schema. -/
def sampleLaundry : ComplaintBody :=
  { category := some "Laundry", subCategory := none, description := some "wet floor" }

/-! ## Basic facts about the handlers -/

theorem saveComplaint_same (w : World) (id : String) (c : Complaint) :
    (w.saveComplaint id c).complaints id = some c := by
  simp [World.saveComplaint]

theorem saveComplaint_other (w : World) (id k : String) (c : Complaint) (h : k ≠ id) :
    (w.saveComplaint id c).complaints k = w.complaints k := by
  simp [World.saveComplaint, h]

theorem createNotification_complaints (env : Env) (w : World) (data : Notification) :
    (createNotification env w data).1.complaints = w.complaints := by
  unfold createNotification
  split <;> rfl

theorem createNotification_members (env : Env) (w : World) (data : Notification) :
    (createNotification env w data).1.members = w.members := by
  unfold createNotification
  split <;> rfl

theorem applyStatusEffects_currentStatus (s old : String) (c : Complaint) :
    (applyStatusEffects s old c).currentStatus = c.currentStatus := by
  unfold applyStatusEffects
  split
  · rfl
  · split <;> rfl

theorem applyStatusEffects_statusHistory (s old : String) (c : Complaint) :
    (applyStatusEffects s old c).statusHistory = c.statusHistory := by
  unfold applyStatusEffects
  split
  · rfl
  · split <;> rfl

theorem applyStatusEffects_assignedTo (s old : String) (c : Complaint) :
    (applyStatusEffects s old c).assignedTo = c.assignedTo := by
  unfold applyStatusEffects
  split
  · rfl
  · split <;> rfl

theorem applyStatusEffects_isLockedForUpdates (s old : String) (c : Complaint) :
    (applyStatusEffects s old c).isLockedForUpdates = c.isLockedForUpdates := by
  unfold applyStatusEffects
  split
  · rfl
  · split <;> rfl

theorem applyStatusUpdate_currentStatus (req : StatusRequest) (now : Nat) (c : Complaint) :
    (applyStatusUpdate req now c).currentStatus = req.status := by
  simp [applyStatusUpdate, applyStatusEffects_currentStatus]

theorem applyStatusUpdate_statusHistory (req : StatusRequest) (now : Nat) (c : Complaint) :
    (applyStatusUpdate req now c).statusHistory =
      c.statusHistory ++
        [{ status := req.status, note := orEmpty req.note, assignedTo := c.assignedTo,
           timestamp := now, updatedBy := none }] := by
  simp [applyStatusUpdate, applyStatusEffects_statusHistory]

theorem applyStatusUpdate_assignedTo (req : StatusRequest) (now : Nat) (c : Complaint) :
    (applyStatusUpdate req now c).assignedTo = c.assignedTo := by
  simp [applyStatusUpdate, applyStatusEffects_assignedTo]

theorem applyStatusUpdate_isLockedForUpdates (req : StatusRequest) (now : Nat)
    (c : Complaint) :
    (applyStatusUpdate req now c).isLockedForUpdates = c.isLockedForUpdates := by
  simp [applyStatusUpdate, applyStatusEffects_isLockedForUpdates]

theorem applyStatusUpdate_matches (req : StatusRequest) (now : Nat) (c : Complaint) :
    statusMatchesHistory (applyStatusUpdate req now c) := by
  simp [statusMatchesHistory, applyStatusUpdate_currentStatus,
    applyStatusUpdate_statusHistory]

theorem commitStatus_complaints (env : Env) (w : World) (req : StatusRequest) (now : Nat)
    (c : Complaint) :
    (commitStatus env w req now c).1.complaints =
      (w.saveComplaint req.id (applyStatusUpdate req now c)).complaints := by
  simp [commitStatus, createNotification_complaints]

theorem commitStatus_response (env : Env) (w : World) (req : StatusRequest) (now : Nat)
    (c : Complaint) :
    (commitStatus env w req now c).2 = Response.json 200 (applyStatusUpdate req now c) := by
  simp [commitStatus]

/-- Every run of `updateComplaintStatus` either answers with a failure and
leaves the collections as they are, or commits the stored complaint, possibly
with a new assignee. -/
theorem updateComplaintStatus_cases (env : Env) (w : World) (req : StatusRequest)
    (now : Nat) :
    (∃ code msg, updateComplaintStatus env w req now = (w, Response.fail code msg)) ∨
    (∃ c c0, w.complaints req.id = some c ∧ c.isLockedForUpdates = false ∧
      (c0 = c ∨ ∃ mid, c0 = { c with assignedTo := some mid }) ∧
      updateComplaintStatus env w req now = commitStatus env w req now c0) := by
  unfold updateComplaintStatus
  split
  · exact Or.inl ⟨_, _, rfl⟩
  · split
    · exact Or.inl ⟨_, _, rfl⟩
    · rename_i c hc
      split
      · exact Or.inl ⟨_, _, rfl⟩
      · rename_i hl
        split
        · exact Or.inl ⟨_, _, rfl⟩
        · split
          · simp only []
            split
            · exact Or.inl ⟨_, _, rfl⟩
            · split
              · exact Or.inl ⟨_, _, rfl⟩
              · split
                · exact Or.inl ⟨_, _, rfl⟩
                · split
                  · exact Or.inl ⟨_, _, rfl⟩
                  · exact Or.inr ⟨c, _, hc, by simpa using hl, Or.inr ⟨_, rfl⟩, rfl⟩
          · exact Or.inr ⟨c, c, hc, by simpa using hl, Or.inl rfl, rfl⟩

theorem updateComplaintStatus_preserves (env : Env) (w : World) (req : StatusRequest)
    (now : Nat) (id : String) (c : Complaint) (hc : w.complaints id = some c)
    (hm : statusMatchesHistory c) :
    ∃ d, (updateComplaintStatus env w req now).1.complaints id = some d ∧
      statusMatchesHistory d := by
  rcases updateComplaintStatus_cases env w req now with ⟨code, msg, h⟩ | ⟨c1, c0, _, _, _, h⟩
  · rw [h]
    exact ⟨c, hc, hm⟩
  · rw [h, commitStatus_complaints]
    by_cases hk : id = req.id
    · subst hk
      exact ⟨_, saveComplaint_same _ _ _, applyStatusUpdate_matches _ _ _⟩
    · rw [saveComplaint_other _ _ _ _ hk]
      exact ⟨c, hc, hm⟩

theorem submitFeedback_preserves (env : Env) (w : World) (req : FeedbackRequest)
    (now : Nat) (id : String) (c : Complaint) (hc : w.complaints id = some c)
    (hm : statusMatchesHistory c) :
    ∃ d, (submitFeedback env w req now).1.complaints id = some d ∧
      statusMatchesHistory d := by
  unfold submitFeedback
  split
  · exact ⟨c, hc, hm⟩
  · split
    · exact ⟨c, hc, hm⟩
    · rename_i c1 hc1
      split
      · exact ⟨c, hc, hm⟩
      · split
        · exact ⟨c, hc, hm⟩
        · split
          · exact ⟨c, hc, hm⟩
          · by_cases hk : id = req.id
            · subst hk
              rw [hc] at hc1
              cases hc1
              exact ⟨_, saveComplaint_same _ _ _, hm⟩
            · simp only []
              rw [saveComplaint_other _ _ _ _ hk]
              exact ⟨c, hc, hm⟩

theorem runCalls_preserves (env : Env) (calls : List Call) :
    ∀ (w : World) (id : String) (c : Complaint), w.complaints id = some c →
      statusMatchesHistory c →
      ∃ d, (runCalls env w calls).complaints id = some d ∧ statusMatchesHistory d := by
  induction calls with
  | nil => intro w id c hc hm; exact ⟨c, hc, hm⟩
  | cons call rest ih =>
    intro w id c hc hm
    have hstep : ∃ d, (call.run env w).1.complaints id = some d ∧ statusMatchesHistory d := by
      cases call with
      | update req now => exact updateComplaintStatus_preserves env w req now id c hc hm
      | feedback req now => exact submitFeedback_preserves env w req now id c hc hm
    obtain ⟨d, hd, hdm⟩ := hstep
    exact ih _ id d hd hdm

theorem updateComplaintStatus_success_matches (env : Env) (w : World) (req : StatusRequest)
    (now : Nat) (hs : (updateComplaintStatus env w req now).2.isSuccess = true) :
    ∃ d, (updateComplaintStatus env w req now).1.complaints req.id = some d ∧
      statusMatchesHistory d := by
  rcases updateComplaintStatus_cases env w req now with ⟨code, msg, h⟩ | ⟨c1, c0, _, _, _, h⟩
  · rw [h] at hs
    simp [Response.isSuccess] at hs
  · rw [h, commitStatus_complaints]
    exact ⟨_, saveComplaint_same _ _ _, applyStatusUpdate_matches _ _ _⟩

/-- The run of `updateComplaintStatus` on an unlocked stored complaint with a
valid status and a well-formed memberId: only the member checks remain. -/
theorem updateComplaintStatus_assign (env : Env) (w : World) (req : StatusRequest)
    (now : Nat) (c : Complaint) (mid : String) (hid : env.isValidObjectId req.id = true)
    (hc : w.complaints req.id = some c) (hl : c.isLockedForUpdates = false)
    (hst : req.status ∈ validStatuses) (hm : req.memberId = some mid) (hne : mid ≠ "")
    (hmid : env.isValidObjectId mid = true) :
    updateComplaintStatus env w req now =
      match w.members mid with
      | none => (w, Response.fail 400 msgInvalidMember)
      | some m =>
        if m.isActive = false then (w, Response.fail 400 msgInvalidMember)
        else if validCategory m c = false then (w, Response.fail 400 msgCategoryMismatch)
        else commitStatus env w req now { c with assignedTo := some mid } := by
  have htr : truthy (some mid) = true := by simp [truthy, hne]
  unfold updateComplaintStatus
  simp only [hid, hc, hl, hm, htr, hmid, Option.getD_some]
  simp [hst]

/-- The run of `updateComplaintStatus` on an unlocked stored complaint with a
valid status and no memberId: the update is committed. -/
theorem updateComplaintStatus_plain (env : Env) (w : World) (req : StatusRequest)
    (now : Nat) (c : Complaint) (hid : env.isValidObjectId req.id = true)
    (hc : w.complaints req.id = some c) (hl : c.isLockedForUpdates = false)
    (hst : req.status ∈ validStatuses) (hm : truthy req.memberId = false) :
    updateComplaintStatus env w req now = commitStatus env w req now c := by
  unfold updateComplaintStatus
  simp only [hid, hc, hl, hm]
  simp [hst]

/-- The run of `submitFeedback` when the id is well formed and all four
checks pass. -/
theorem submitFeedback_success (env : Env) (w : World) (req : FeedbackRequest) (now : Nat)
    (c : Complaint) (hid : env.isValidObjectId req.id = true)
    (hc : w.complaints req.id = some c) (hown : c.student = req.user)
    (hres : c.currentStatus = "Resolved") (hfb : c.feedback = none) :
    submitFeedback env w req now =
      (w.saveComplaint req.id { c with feedback := some (newFeedback req now) },
       Response.json 200 { c with feedback := some (newFeedback req now) }) := by
  simp [submitFeedback, hid, hc, hown, hres, hfb]

theorem updateComplaintStatus_keeps_locked (env : Env) (w : World) (req : StatusRequest)
    (now : Nat) (id : String) (c : Complaint) (hc : w.complaints id = some c)
    (hl : c.isLockedForUpdates = true) :
    (updateComplaintStatus env w req now).1.complaints id = some c := by
  rcases updateComplaintStatus_cases env w req now with
    ⟨code, msg, h⟩ | ⟨c1, c0, hc1, hl1, _, h⟩
  · rw [h]
    exact hc
  · rw [h, commitStatus_complaints]
    by_cases hk : id = req.id
    · subst hk
      rw [hc] at hc1
      cases hc1
      rw [hl] at hl1
      cases hl1
    · rw [saveComplaint_other _ _ _ _ hk]
      exact hc

theorem submitFeedback_keeps_lock (env : Env) (w : World) (req : FeedbackRequest)
    (now : Nat) (id : String) (c : Complaint) (hc : w.complaints id = some c)
    (hl : c.isLockedForUpdates = true) :
    ∃ d, (submitFeedback env w req now).1.complaints id = some d ∧
      d.isLockedForUpdates = true := by
  unfold submitFeedback
  split
  · exact ⟨c, hc, hl⟩
  · split
    · exact ⟨c, hc, hl⟩
    · rename_i c1 hc1
      split
      · exact ⟨c, hc, hl⟩
      · split
        · exact ⟨c, hc, hl⟩
        · split
          · exact ⟨c, hc, hl⟩
          · by_cases hk : id = req.id
            · subst hk
              rw [hc] at hc1
              cases hc1
              exact ⟨_, saveComplaint_same _ _ _, hl⟩
            · simp only []
              rw [saveComplaint_other _ _ _ _ hk]
              exact ⟨c, hc, hl⟩

theorem runCalls_keeps_lock (env : Env) (calls : List Call) :
    ∀ (w : World) (id : String) (c : Complaint), w.complaints id = some c →
      c.isLockedForUpdates = true →
      ∃ d, (runCalls env w calls).complaints id = some d ∧ d.isLockedForUpdates = true := by
  induction calls with
  | nil => intro w id c hc hl; exact ⟨c, hc, hl⟩
  | cons call rest ih =>
    intro w id c hc hl
    have hstep : ∃ d, (call.run env w).1.complaints id = some d ∧
        d.isLockedForUpdates = true := by
      cases call with
      | update req now =>
        exact ⟨c, updateComplaintStatus_keeps_locked env w req now id c hc hl, hl⟩
      | feedback req now => exact submitFeedback_keeps_lock env w req now id c hc hl
    obtain ⟨d, hd, hdl⟩ := hstep
    exact ih _ id d hd hdl

/-- The run of `giveFeedback` on a complaint of the caller that is "Resolved"
and has no feedback. -/
theorem giveFeedback_recorded (delivers : Notice → Bool) (users : List User) (w : World)
    (req : FeedbackRequest) (userName : String) (now : Nat) (c : Complaint)
    (hc : w.complaints req.id = some c) (hown : c.student = req.user)
    (hres : c.currentStatus = "Resolved") (hfb : c.feedback = none) :
    (giveFeedback delivers users w req userName now).response =
      Response.json 200 (recordedFeedback c req.isSatisfied req.comment now) ∧
    (giveFeedback delivers users w req userName now).world =
      w.saveComplaint req.id (recordedFeedback c req.isSatisfied req.comment now) := by
  simp [giveFeedback, hc, hown, Option.filter, addFeedback, hres, hfb]

/-! ## The claims -/

/-- C1: starting from any collections, once at least one `updateComplaintStatus`
call on a complaint has succeeded in a sequence of calls (status updates that
succeed or fail, and `submitFeedback` calls, in any order), the complaint is
stored and its `currentStatus` is the status of the last entry of its
`statusHistory`. -/
theorem currentStatus_matches_last_history (env : Env) (calls : List Call) (w : World)
    (id : String) (h : someUpdateSucceeds env w id calls = true) :
    ∃ c, (runCalls env w calls).complaints id = some c ∧
      c.statusHistory.getLast?.map (fun e => e.status) = some c.currentStatus := by
  induction calls generalizing w with
  | nil => simp [someUpdateSucceeds] at h
  | cons call rest ih =>
    simp only [someUpdateSucceeds, Bool.or_eq_true, Bool.and_eq_true] at h
    rcases h with ⟨hu, hs⟩ | h
    · cases call with
      | feedback req now => simp [Call.isUpdateOf] at hu
      | update req now =>
        have hid : req.id = id := by simpa [Call.isUpdateOf] using hu
        obtain ⟨d, hd, hdm⟩ := updateComplaintStatus_success_matches env w req now hs
        rw [hid] at hd
        exact runCalls_preserves env rest _ id d hd hdm
    · exact ih _ h

theorem currentStatus_matches_last_history_witness :
    someUpdateSucceeds sampleEnv sampleWorld "c1" sampleCalls = true ∧
    ∃ c, (runCalls sampleEnv sampleWorld sampleCalls).complaints "c1" = some c ∧
      c.statusHistory.getLast?.map (fun e => e.status) = some c.currentStatus :=
  ⟨by decide, currentStatus_matches_last_history sampleEnv sampleCalls sampleWorld "c1"
    (by decide)⟩

/-- C2: for a stored complaint with `isLockedForUpdates` set, reached under a
well-formed id, `updateComplaintStatus` answers 403 with the lock message and
returns the collections unchanged, whatever the status, note and memberId of
the request. -/
theorem locked_update_rejected (env : Env) (w : World) (req : StatusRequest) (now : Nat)
    (c : Complaint) (hid : env.isValidObjectId req.id = true)
    (hc : w.complaints req.id = some c) (hl : c.isLockedForUpdates = true) :
    updateComplaintStatus env w req now = (w, Response.fail 403 msgLocked) := by
  simp [updateComplaintStatus, hid, hc, hl]

theorem locked_update_rejected_witness :
    sampleEnv.isValidObjectId "c2" = true ∧
    updateComplaintStatus sampleEnv sampleWorld
      { id := "c2", status := "Nonsense", note := some "x", memberId := some "zz",
        user := "a1" } 9 = (sampleWorld, Response.fail 403 msgLocked) :=
  ⟨by decide, locked_update_rejected sampleEnv sampleWorld _ 9
    { sampleComplaint with isLockedForUpdates := true } (by decide) (by decide) (by decide)⟩

/-- C3: for an unlocked stored complaint, a valid status and a well-formed
memberId, the update succeeds exactly when the member exists, is active and
its category is the complaint's category or, for a Maintenance complaint, the
complaint's subCategory; then the stored complaint is assigned to the member.
In every other case the answer is 400 with one of the two assignment messages
and the collections are unchanged; an inactive member is always rejected. -/
theorem assignment_accepted_iff (env : Env) (w : World) (req : StatusRequest) (now : Nat)
    (c : Complaint) (mid : String) (hid : env.isValidObjectId req.id = true)
    (hc : w.complaints req.id = some c) (hl : c.isLockedForUpdates = false)
    (hst : req.status ∈ validStatuses) (hm : req.memberId = some mid) (hne : mid ≠ "")
    (hmid : env.isValidObjectId mid = true) :
    ((updateComplaintStatus env w req now).2.isSuccess = true ↔
      ∃ m, w.members mid = some m ∧ m.isActive = true ∧
        (m.category = c.category ∨
          (c.category = "Maintenance" ∧ some m.category = c.subCategory))) ∧
    ((updateComplaintStatus env w req now).2.isSuccess = true →
      ∃ d, (updateComplaintStatus env w req now).1.complaints req.id = some d ∧
        d.assignedTo = some mid) ∧
    ((updateComplaintStatus env w req now).2.isSuccess = false →
      updateComplaintStatus env w req now = (w, Response.fail 400 msgInvalidMember) ∨
      updateComplaintStatus env w req now = (w, Response.fail 400 msgCategoryMismatch)) ∧
    (∀ m, w.members mid = some m → m.isActive = false →
      updateComplaintStatus env w req now = (w, Response.fail 400 msgInvalidMember)) := by
  have hrun := updateComplaintStatus_assign env w req now c mid hid hc hl hst hm hne hmid
  rcases hmem : w.members mid with _ | m
  · have hr : updateComplaintStatus env w req now =
        (w, Response.fail 400 msgInvalidMember) := by rw [hrun, hmem]
    rw [hr]
    simp [Response.isSuccess]
  · rcases hact : m.isActive with _ | _
    · have hr : updateComplaintStatus env w req now =
          (w, Response.fail 400 msgInvalidMember) := by simp [hrun, hmem, hact]
      rw [hr]
      simp [Response.isSuccess, hact]
    · rcases hv : validCategory m c with _ | _
      · have hv2 : ¬ (m.category = c.category ∨
            (c.category = "Maintenance" ∧ some m.category = c.subCategory)) := by
          simpa [validCategory] using hv
        have hr : updateComplaintStatus env w req now =
            (w, Response.fail 400 msgCategoryMismatch) := by simp [hrun, hmem, hact, hv]
        rw [hr]
        refine ⟨?_, ?_, ?_, ?_⟩
        · simp only [Response.isSuccess, Bool.false_eq_true, false_iff]
          rintro ⟨m1, hm1, _, hcat⟩
          cases hm1
          exact hv2 hcat
        · simp [Response.isSuccess]
        · intro _
          exact Or.inr rfl
        · intro m1 hm1 hact1
          cases hm1
          rw [hact] at hact1
          cases hact1
      · have hv2 : m.category = c.category ∨
            (c.category = "Maintenance" ∧ some m.category = c.subCategory) := by
          simpa [validCategory] using hv
        have hr : updateComplaintStatus env w req now =
            commitStatus env w req now { c with assignedTo := some mid } := by
          simp [hrun, hmem, hact, hv]
        rw [hr]
        refine ⟨?_, ?_, ?_, ?_⟩
        · simp only [commitStatus_response, Response.isSuccess, true_iff]
          exact ⟨m, rfl, hact, hv2⟩
        · intro _
          refine ⟨applyStatusUpdate req now { c with assignedTo := some mid }, ?_, ?_⟩
          · rw [commitStatus_complaints]
            exact saveComplaint_same _ _ _
          · rw [applyStatusUpdate_assignedTo]
        · simp [commitStatus_response, Response.isSuccess]
        · intro m1 hm1 hact1
          cases hm1
          rw [hact] at hact1
          cases hact1

theorem assignment_accepted_iff_witness :
    ((updateComplaintStatus sampleEnv sampleWorld sampleAssign 7).2.isSuccess = true ↔
      ∃ m, sampleWorld.members "m1" = some m ∧ m.isActive = true ∧
        (m.category = sampleComplaint.category ∨
          (sampleComplaint.category = "Maintenance" ∧
            some m.category = sampleComplaint.subCategory))) ∧
    ((updateComplaintStatus sampleEnv sampleWorld sampleAssign 7).2.isSuccess = true →
      ∃ d, (updateComplaintStatus sampleEnv sampleWorld sampleAssign 7).1.complaints
          sampleAssign.id = some d ∧ d.assignedTo = some "m1") ∧
    ((updateComplaintStatus sampleEnv sampleWorld sampleAssign 7).2.isSuccess = false →
      updateComplaintStatus sampleEnv sampleWorld sampleAssign 7 =
        (sampleWorld, Response.fail 400 msgInvalidMember) ∨
      updateComplaintStatus sampleEnv sampleWorld sampleAssign 7 =
        (sampleWorld, Response.fail 400 msgCategoryMismatch)) ∧
    (∀ m, sampleWorld.members "m1" = some m → m.isActive = false →
      updateComplaintStatus sampleEnv sampleWorld sampleAssign 7 =
        (sampleWorld, Response.fail 400 msgInvalidMember)) :=
  assignment_accepted_iff sampleEnv sampleWorld sampleAssign 7 sampleComplaint "m1"
    (by decide) (by decide) (by decide) (by decide) (by decide) (by decide) (by decide)

/-- C4: for an unlocked stored complaint, a valid status and a well-formed
memberId of a member whose category is neither the complaint's category nor,
for a Maintenance complaint, its subCategory, `updateComplaintStatus` answers
400 (category mismatch for an active member, invalid member for an inactive
one) and returns the collections unchanged, so the complaint keeps its
assignedTo, currentStatus, statusHistory, feedback and isReopened. -/
theorem rejected_assignment_atomic (env : Env) (w : World) (req : StatusRequest)
    (now : Nat) (c : Complaint) (mid : String) (m : Member)
    (hid : env.isValidObjectId req.id = true) (hc : w.complaints req.id = some c)
    (hl : c.isLockedForUpdates = false) (hst : req.status ∈ validStatuses)
    (hm : req.memberId = some mid) (hne : mid ≠ "") (hmid : env.isValidObjectId mid = true)
    (hmem : w.members mid = some m) (hcat : m.category ≠ c.category)
    (hsub : c.category = "Maintenance" → some m.category ≠ c.subCategory) :
    updateComplaintStatus env w req now =
      (w, Response.fail 400 (if m.isActive then msgCategoryMismatch else msgInvalidMember)) ∧
    (updateComplaintStatus env w req now).1.complaints req.id = some c := by
  have hrun := updateComplaintStatus_assign env w req now c mid hid hc hl hst hm hne hmid
  have hv : validCategory m c = false := by
    rcases hv : validCategory m c with _ | _
    · rfl
    · exfalso
      have hv2 : m.category = c.category ∨
          (c.category = "Maintenance" ∧ some m.category = c.subCategory) := by
        simpa [validCategory] using hv
      rcases hv2 with h | ⟨h1, h2⟩
      · exact hcat h
      · exact hsub h1 h2
  have hr : updateComplaintStatus env w req now =
      (w, Response.fail 400 (if m.isActive then msgCategoryMismatch else msgInvalidMember)) := by
    rcases hact : m.isActive with _ | _ <;> simp [hrun, hmem, hact, hv]
  exact ⟨hr, by rw [hr]; exact hc⟩

theorem rejected_assignment_atomic_witness :
    updateComplaintStatus sampleEnv sampleWorld sampleMismatch 7 =
      (sampleWorld, Response.fail 400 msgCategoryMismatch) ∧
    (updateComplaintStatus sampleEnv sampleWorld sampleMismatch 7).1.complaints "c1" =
      some sampleComplaint :=
  rejected_assignment_atomic sampleEnv sampleWorld sampleMismatch 7 sampleComplaint "m3"
    { category := "Food", isActive := true }
    (by decide) (by decide) (by decide) (by decide) (by decide) (by decide) (by decide)
    (by decide) (by decide) (by decide)

/-- C5: for an unlocked stored Maintenance complaint with subCategory `s` and
an active member of category `s`, `updateComplaintStatus` to "In Progress"
with that member's id succeeds; the stored complaint is then assigned to the
member, its statusHistory is the previous one followed by one entry, and that
entry carries the new assignee. -/
theorem maintenance_assignment_succeeds (env : Env) (w : World) (req : StatusRequest)
    (now : Nat) (c : Complaint) (mid s : String) (m : Member)
    (hid : env.isValidObjectId req.id = true) (hc : w.complaints req.id = some c)
    (hl : c.isLockedForUpdates = false) (hst : req.status = "In Progress")
    (hm : req.memberId = some mid) (hne : mid ≠ "") (hmid : env.isValidObjectId mid = true)
    (hmem : w.members mid = some m) (hact : m.isActive = true)
    (hcat : c.category = "Maintenance") (hsub : c.subCategory = some s)
    (hmc : m.category = s) :
    ∃ d e, (updateComplaintStatus env w req now).2 = Response.json 200 d ∧
      (updateComplaintStatus env w req now).1.complaints req.id = some d ∧
      d.assignedTo = some mid ∧ d.currentStatus = "In Progress" ∧
      d.statusHistory = c.statusHistory ++ [e] ∧
      d.statusHistory.length = c.statusHistory.length + 1 ∧
      e.assignedTo = some mid ∧ e.status = "In Progress" := by
  have hst2 : req.status ∈ validStatuses := by rw [hst]; decide
  have hrun := updateComplaintStatus_assign env w req now c mid hid hc hl hst2 hm hne hmid
  have hv : validCategory m c = true := by simp [validCategory, hcat, hsub, hmc]
  have hr : updateComplaintStatus env w req now =
      commitStatus env w req now { c with assignedTo := some mid } := by
    simp [hrun, hmem, hact, hv]
  refine ⟨applyStatusUpdate req now { c with assignedTo := some mid },
    { status := req.status, note := orEmpty req.note, assignedTo := some mid,
      timestamp := now, updatedBy := none }, ?_, ?_, ?_, ?_, ?_, ?_, rfl, hst⟩
  · rw [hr, commitStatus_response]
  · rw [hr, commitStatus_complaints]
    exact saveComplaint_same _ _ _
  · rw [applyStatusUpdate_assignedTo]
  · rw [applyStatusUpdate_currentStatus, hst]
  · rw [applyStatusUpdate_statusHistory]
  · rw [applyStatusUpdate_statusHistory]
    simp

theorem maintenance_assignment_succeeds_witness :
    ∃ d e, (updateComplaintStatus sampleEnv sampleWorld sampleAssign 7).2 =
        Response.json 200 d ∧
      (updateComplaintStatus sampleEnv sampleWorld sampleAssign 7).1.complaints
        sampleAssign.id = some d ∧
      d.assignedTo = some "m1" ∧ d.currentStatus = "In Progress" ∧
      d.statusHistory = sampleComplaint.statusHistory ++ [e] ∧
      d.statusHistory.length = sampleComplaint.statusHistory.length + 1 ∧
      e.assignedTo = some "m1" ∧ e.status = "In Progress" :=
  maintenance_assignment_succeeds sampleEnv sampleWorld sampleAssign 7 sampleComplaint
    "m1" "Electrical" { category := "Electrical", isActive := true }
    (by decide) (by decide) (by decide) (by decide) (by decide) (by decide) (by decide)
    (by decide) (by decide) (by decide) (by decide) (by decide)

/-- C6: for a complaint of the caller that is "Resolved" and has no
feedback, the feedback submission `giveFeedback` with `isSatisfied = true`
succeeds and stores the complaint with `isLockedForUpdates` set; after any
further status updates and `submitFeedback` calls, every
`updateComplaintStatus` call on that complaint is answered 403 with the lock
message. -/
theorem satisfied_feedback_locks (delivers : Notice → Bool) (users : List User) (w : World)
    (req : FeedbackRequest) (userName : String) (now : Nat) (c : Complaint)
    (hc : w.complaints req.id = some c) (hown : c.student = req.user)
    (hres : c.currentStatus = "Resolved") (hfb : c.feedback = none)
    (hsat : req.isSatisfied = true) :
    ∃ d, (giveFeedback delivers users w req userName now).response = Response.json 200 d ∧
      (giveFeedback delivers users w req userName now).world.complaints req.id = some d ∧
      d.isLockedForUpdates = true ∧
      ∀ (env : Env) (calls : List Call) (upd : StatusRequest) (later : Nat),
        upd.id = req.id → env.isValidObjectId upd.id = true →
        (updateComplaintStatus env
          (runCalls env (giveFeedback delivers users w req userName now).world calls)
          upd later).2 = Response.fail 403 msgLocked := by
  have hg := giveFeedback_recorded delivers users w req userName now c hc hown hres hfb
  obtain ⟨hresp, hworld⟩ := hg
  refine ⟨recordedFeedback c req.isSatisfied req.comment now, hresp, ?_, ?_, ?_⟩
  · rw [hworld]
    exact saveComplaint_same _ _ _
  · simp [recordedFeedback, hsat]
  · intro env calls upd later hid hvalid
    have hstored : (giveFeedback delivers users w req userName now).world.complaints upd.id =
        some (recordedFeedback c req.isSatisfied req.comment now) := by
      rw [hworld, hid]
      exact saveComplaint_same _ _ _
    obtain ⟨e, he, hel⟩ := runCalls_keeps_lock env calls _ upd.id _ hstored
      (by simp [recordedFeedback, hsat])
    simp [updateComplaintStatus, hvalid, he, hel]

theorem satisfied_feedback_locks_witness :
    ∃ d, (giveFeedback sampleDelivers sampleUsers sampleWorld sampleSatisfied "Asha"
        5).response = Response.json 200 d ∧
      (giveFeedback sampleDelivers sampleUsers sampleWorld sampleSatisfied "Asha"
        5).world.complaints sampleSatisfied.id = some d ∧
      d.isLockedForUpdates = true ∧
      ∀ (env : Env) (calls : List Call) (upd : StatusRequest) (later : Nat),
        upd.id = sampleSatisfied.id → env.isValidObjectId upd.id = true →
        (updateComplaintStatus env
          (runCalls env (giveFeedback sampleDelivers sampleUsers sampleWorld sampleSatisfied
            "Asha" 5).world calls)
          upd later).2 = Response.fail 403 msgLocked :=
  satisfied_feedback_locks sampleDelivers sampleUsers sampleWorld sampleSatisfied "Asha" 5
    sampleComplaint (by decide) (by decide) (by decide) (by decide) (by decide)

/-- C7: for a complaint of the caller that is "Resolved" and has no
feedback, the feedback submission `giveFeedback` with `isSatisfied = false`
succeeds and stores the complaint with `isReopened` set. -/
theorem dissatisfied_feedback_reopens (delivers : Notice → Bool) (users : List User)
    (w : World) (req : FeedbackRequest) (userName : String) (now : Nat) (c : Complaint)
    (hc : w.complaints req.id = some c) (hown : c.student = req.user)
    (hres : c.currentStatus = "Resolved") (hfb : c.feedback = none)
    (hsat : req.isSatisfied = false) :
    ∃ d, (giveFeedback delivers users w req userName now).response = Response.json 200 d ∧
      (giveFeedback delivers users w req userName now).world.complaints req.id = some d ∧
      d.isReopened = true := by
  have hg := giveFeedback_recorded delivers users w req userName now c hc hown hres hfb
  obtain ⟨hresp, hworld⟩ := hg
  refine ⟨recordedFeedback c req.isSatisfied req.comment now, hresp, ?_, ?_⟩
  · rw [hworld]
    exact saveComplaint_same _ _ _
  · simp [recordedFeedback, hsat]

theorem dissatisfied_feedback_reopens_witness :
    ∃ d, (giveFeedback sampleDelivers sampleUsers sampleWorld sampleDissatisfied "Asha"
        5).response = Response.json 200 d ∧
      (giveFeedback sampleDelivers sampleUsers sampleWorld sampleDissatisfied "Asha"
        5).world.complaints sampleDissatisfied.id = some d ∧
      d.isReopened = true :=
  dissatisfied_feedback_reopens sampleDelivers sampleUsers sampleWorld sampleDissatisfied
    "Asha" 5 sampleComplaint (by decide) (by decide) (by decide) (by decide) (by decide)

/-- C8: for an unlocked stored complaint owned by the caller, resolved and
without feedback, `submitFeedback` with `isSatisfied = false` succeeds and
stores a complaint that is still unlocked, still "Resolved" and has the same
statusHistory; a following `updateComplaintStatus` to "In Progress" without a
memberId succeeds. -/
theorem dissatisfied_feedback_frame (env : Env) (w : World) (req : FeedbackRequest)
    (now : Nat) (c : Complaint) (upd : StatusRequest) (later : Nat)
    (hc : w.complaints req.id = some c) (hown : c.student = req.user)
    (hres : c.currentStatus = "Resolved") (hfb : c.feedback = none)
    (hl : c.isLockedForUpdates = false) (_hsat : req.isSatisfied = false)
    (hid : env.isValidObjectId req.id = true) (huid : upd.id = req.id)
    (hst : upd.status = "In Progress") (hm : upd.memberId = none) :
    ∃ d e, submitFeedback env w req now = (w.saveComplaint req.id d, Response.json 200 d) ∧
      d.isLockedForUpdates = false ∧ d.currentStatus = "Resolved" ∧
      d.statusHistory = c.statusHistory ∧
      (updateComplaintStatus env (submitFeedback env w req now).1 upd later).2 =
        Response.json 200 e ∧
      (updateComplaintStatus env (submitFeedback env w req now).1 upd later).1.complaints
        req.id = some e ∧
      e.currentStatus = "In Progress" := by
  have hr : ∃ d, submitFeedback env w req now = (w.saveComplaint req.id d, Response.json 200 d) ∧
      d.isLockedForUpdates = false ∧ d.currentStatus = "Resolved" ∧
      d.statusHistory = c.statusHistory :=
    ⟨_, submitFeedback_success env w req now c hid hc hown hres hfb, hl, hres, rfl⟩
  obtain ⟨d, hr, hdl, hdr, hdh⟩ := hr
  have hst2 : upd.status ∈ validStatuses := by rw [hst]; decide
  have hu := updateComplaintStatus_plain env (submitFeedback env w req now).1 upd later d
    (by rw [huid]; exact hid) (by rw [hr, huid]; exact saveComplaint_same _ _ _) hdl hst2
    (by simp [hm, truthy])
  refine ⟨d, applyStatusUpdate upd later d, hr, hdl, hdr, hdh, ?_, ?_, ?_⟩
  · rw [hu, commitStatus_response]
  · rw [hu, commitStatus_complaints, huid]
    exact saveComplaint_same _ _ _
  · rw [applyStatusUpdate_currentStatus, hst]

theorem dissatisfied_feedback_frame_witness :
    ∃ d e, submitFeedback sampleEnv sampleWorld sampleDissatisfied 5 =
        (sampleWorld.saveComplaint "c1" d, Response.json 200 d) ∧
      d.isLockedForUpdates = false ∧ d.currentStatus = "Resolved" ∧
      d.statusHistory = sampleComplaint.statusHistory ∧
      (updateComplaintStatus sampleEnv (submitFeedback sampleEnv sampleWorld sampleDissatisfied 5).1
        sampleProgress 6).2 = Response.json 200 e ∧
      (updateComplaintStatus sampleEnv (submitFeedback sampleEnv sampleWorld sampleDissatisfied 5).1
        sampleProgress 6).1.complaints "c1" = some e ∧
      e.currentStatus = "In Progress" :=
  dissatisfied_feedback_frame sampleEnv sampleWorld sampleDissatisfied 5 sampleComplaint
    sampleProgress 6 (by decide) (by decide) (by decide) (by decide) (by decide)
    (by decide) (by decide) (by decide) (by decide) (by decide)

/-- C9, counterexample: for an id that is not a well-formed ObjectId no
complaint exists, yet `submitFeedback` does not answer 404: the lookup throws
and the answer is 500. -/
theorem submitFeedback_ill_formed_id_not_404 :
    sampleEnv.isValidObjectId sampleIllFormed.id = false ∧
    sampleWorld.complaints sampleIllFormed.id = none ∧
    submitFeedback sampleEnv sampleWorld sampleIllFormed 5 =
      (sampleWorld, Response.fail 500 msgFeedbackFailed) ∧
    (submitFeedback sampleEnv sampleWorld sampleIllFormed 5).2 ≠
      Response.fail 404 msgComplaintNotFound :=
  ⟨by decide, by decide, rfl, by decide⟩

/-- C9, amended: for an id that is not a well-formed ObjectId `submitFeedback`
answers 500 and changes nothing. For a well-formed id it succeeds exactly when
the complaint is stored, its student is the caller, it is "Resolved" and it
has no feedback; otherwise it answers, in this order, 404 (not stored), 403
(other owner), 400 (not resolved), 400 (feedback already there), each time
with the collections unchanged. After a success the stored feedback is the
submitted one, and a second submission by the same caller is answered 400
(duplicate) and leaves the collections, hence the first feedback, as they
are. -/
theorem submitFeedback_outcomes (env : Env) (w : World) (req : FeedbackRequest) (now : Nat) :
    (env.isValidObjectId req.id = false →
      submitFeedback env w req now = (w, Response.fail 500 msgFeedbackFailed)) ∧
    ((submitFeedback env w req now).2.isSuccess = true ↔
      env.isValidObjectId req.id = true ∧
        ∃ c, w.complaints req.id = some c ∧ c.student = req.user ∧
          c.currentStatus = "Resolved" ∧ c.feedback = none) ∧
    (env.isValidObjectId req.id = true → w.complaints req.id = none →
      submitFeedback env w req now = (w, Response.fail 404 msgComplaintNotFound)) ∧
    (env.isValidObjectId req.id = true → ∀ c, w.complaints req.id = some c →
      c.student ≠ req.user →
      submitFeedback env w req now = (w, Response.fail 403 msgNotOwner)) ∧
    (env.isValidObjectId req.id = true → ∀ c, w.complaints req.id = some c →
      c.student = req.user → c.currentStatus ≠ "Resolved" →
      submitFeedback env w req now = (w, Response.fail 400 msgNotResolved)) ∧
    (env.isValidObjectId req.id = true → ∀ c f, w.complaints req.id = some c →
      c.student = req.user → c.currentStatus = "Resolved" → c.feedback = some f →
      submitFeedback env w req now = (w, Response.fail 400 msgDuplicateFeedback)) ∧
    ((submitFeedback env w req now).2.isSuccess = true →
      ((submitFeedback env w req now).1.complaints req.id).bind (fun c => c.feedback) =
        some (newFeedback req now) ∧
      ∀ (again : FeedbackRequest) (later : Nat), again.id = req.id → again.user = req.user →
        submitFeedback env (submitFeedback env w req now).1 again later =
          ((submitFeedback env w req now).1, Response.fail 400 msgDuplicateFeedback)) := by
  have h500 : env.isValidObjectId req.id = false →
      submitFeedback env w req now = (w, Response.fail 500 msgFeedbackFailed) := by
    intro h
    simp [submitFeedback, h]
  have h404 : env.isValidObjectId req.id = true → w.complaints req.id = none →
      submitFeedback env w req now = (w, Response.fail 404 msgComplaintNotFound) := by
    intro hid h
    simp [submitFeedback, hid, h]
  have h403 : env.isValidObjectId req.id = true → ∀ c, w.complaints req.id = some c →
      c.student ≠ req.user →
      submitFeedback env w req now = (w, Response.fail 403 msgNotOwner) := by
    intro hid c h h1
    simp [submitFeedback, hid, h, h1]
  have h400 : env.isValidObjectId req.id = true → ∀ c, w.complaints req.id = some c →
      c.student = req.user → c.currentStatus ≠ "Resolved" →
      submitFeedback env w req now = (w, Response.fail 400 msgNotResolved) := by
    intro hid c h h1 h2
    simp [submitFeedback, hid, h, h1, h2]
  have hdup : ∀ (v : World) (r : FeedbackRequest) (t : Nat),
      env.isValidObjectId r.id = true → ∀ c f,
      v.complaints r.id = some c → c.student = r.user →
      c.currentStatus = "Resolved" → c.feedback = some f →
      submitFeedback env v r t = (v, Response.fail 400 msgDuplicateFeedback) := by
    intro v r t hid c f h h1 h2 h3
    simp [submitFeedback, hid, h, h1, h2, h3]
  have hiff : (submitFeedback env w req now).2.isSuccess = true ↔
      env.isValidObjectId req.id = true ∧
        ∃ c, w.complaints req.id = some c ∧ c.student = req.user ∧
          c.currentStatus = "Resolved" ∧ c.feedback = none := by
    constructor
    · intro hs
      rcases hid : env.isValidObjectId req.id with _ | _
      · rw [h500 hid] at hs
        simp [Response.isSuccess] at hs
      · refine ⟨rfl, ?_⟩
        rcases hc : w.complaints req.id with _ | c
        · rw [h404 hid hc] at hs
          simp [Response.isSuccess] at hs
        · by_cases h1 : c.student = req.user
          · by_cases h2 : c.currentStatus = "Resolved"
            · rcases h3 : c.feedback with _ | f
              · exact ⟨c, rfl, h1, h2, h3⟩
              · rw [hdup w req now hid c f hc h1 h2 h3] at hs
                simp [Response.isSuccess] at hs
            · rw [h400 hid c hc h1 h2] at hs
              simp [Response.isSuccess] at hs
          · rw [h403 hid c hc h1] at hs
            simp [Response.isSuccess] at hs
    · rintro ⟨hid, c, hc, h1, h2, h3⟩
      rw [submitFeedback_success env w req now c hid hc h1 h2 h3]
      rfl
  refine ⟨h500, hiff, h404, h403, h400, hdup w req now, ?_⟩
  intro hs
  obtain ⟨hid, c, hc, h1, h2, h3⟩ := hiff.mp hs
  rw [submitFeedback_success env w req now c hid hc h1 h2 h3]
  refine ⟨by simp [saveComplaint_same], ?_⟩
  intro again later hagain huser
  exact hdup _ again later (by rw [hagain]; exact hid)
    { c with feedback := some (newFeedback req now) }
    (newFeedback req now) (by rw [hagain]; exact saveComplaint_same _ _ _)
    (by rw [huser]; exact h1) h2 rfl

/-- C10: after a successful `updateComplaintStatus` of a stored complaint from
its previous status to the requested one: "Resolved" clears feedback and
isReopened; "Received" coming from "Resolved" sets isReopened and keeps
feedback; every other pair keeps both. -/
theorem status_side_effects (env : Env) (w : World) (req : StatusRequest) (now : Nat)
    (c : Complaint) (hc : w.complaints req.id = some c)
    (hs : (updateComplaintStatus env w req now).2.isSuccess = true) :
    ∃ d, (updateComplaintStatus env w req now).2 = Response.json 200 d ∧
      (updateComplaintStatus env w req now).1.complaints req.id = some d ∧
      (req.status = "Resolved" → d.feedback = none ∧ d.isReopened = false) ∧
      (req.status = "Received" → c.currentStatus = "Resolved" →
        d.isReopened = true ∧ d.feedback = c.feedback) ∧
      (req.status ≠ "Resolved" →
        ¬ (req.status = "Received" ∧ c.currentStatus = "Resolved") →
        d.feedback = c.feedback ∧ d.isReopened = c.isReopened) := by
  rcases updateComplaintStatus_cases env w req now with
    ⟨code, msg, h⟩ | ⟨c1, c0, hc1, _, hc0, h⟩
  · rw [h] at hs
    simp [Response.isSuccess] at hs
  · rw [hc] at hc1
    cases hc1
    have hf : c0.feedback = c.feedback ∧ c0.isReopened = c.isReopened ∧
        c0.currentStatus = c.currentStatus := by
      rcases hc0 with h0 | ⟨mid, h0⟩ <;> simp [h0]
    obtain ⟨hf1, hf2, hf3⟩ := hf
    refine ⟨applyStatusUpdate req now c0, ?_, ?_, ?_, ?_, ?_⟩
    · rw [h, commitStatus_response]
    · rw [h, commitStatus_complaints]
      exact saveComplaint_same _ _ _
    · intro hr
      simp [applyStatusUpdate, applyStatusEffects, hr]
    · intro hr ho
      simp [applyStatusUpdate, applyStatusEffects, hr, hf1, hf3, ho]
    · intro hr ho
      have ho2 : ¬ (req.status = "Received" ∧ c0.currentStatus = "Resolved") := by
        rw [hf3]; exact ho
      simp only [applyStatusUpdate, applyStatusEffects, beq_iff_eq, hr, if_false,
        Bool.and_eq_true, ho2]
      exact ⟨hf1, hf2⟩

theorem status_side_effects_witness :
    ∃ d, (updateComplaintStatus sampleEnv sampleWorld sampleReopen 7).2 =
        Response.json 200 d ∧
      (updateComplaintStatus sampleEnv sampleWorld sampleReopen 7).1.complaints
        sampleReopen.id = some d ∧
      (sampleReopen.status = "Resolved" → d.feedback = none ∧ d.isReopened = false) ∧
      (sampleReopen.status = "Received" → sampleComplaint.currentStatus = "Resolved" →
        d.isReopened = true ∧ d.feedback = sampleComplaint.feedback) ∧
      (sampleReopen.status ≠ "Resolved" →
        ¬ (sampleReopen.status = "Received" ∧ sampleComplaint.currentStatus = "Resolved") →
        d.feedback = sampleComplaint.feedback ∧
          d.isReopened = sampleComplaint.isReopened) :=
  status_side_effects sampleEnv sampleWorld sampleReopen 7 sampleComplaint (by decide)
    (by decide)

/-- C11: evaluation of the code at an accepted update of `c1` by the admin
`a1`: the appended history entry has the requested status, the empty note and
the new assignee, but its `updatedBy` is unset instead of being `a1`. -/
theorem appended_entry_has_no_updatedBy :
    (updateComplaintStatus sampleEnv sampleWorld sampleAssign 7).2.isSuccess = true ∧
    sampleAssign.user = "a1" ∧
    ((updateComplaintStatus sampleEnv sampleWorld sampleAssign 7).1.complaints "c1").bind
      (fun c => c.statusHistory.getLast?) =
        some { status := "In Progress", note := "", assignedTo := some "m1", timestamp := 7,
               updatedBy := none } := by
  decide

/-- C12: for every stored complaint, an `updateComplaintStatus` call that
succeeds on it leaves a statusHistory equal to the previous one followed by
one entry; a call that fails, or that is for another complaint, and every
`submitFeedback` call leave its statusHistory as it was. -/
theorem statusHistory_append_only (env : Env) (w : World) (k : String) (c : Complaint)
    (hc : w.complaints k = some c) :
    (∀ (req : StatusRequest) (now : Nat),
      ∃ d, (updateComplaintStatus env w req now).1.complaints k = some d ∧
        (((updateComplaintStatus env w req now).2.isSuccess = true ∧ req.id = k) →
          ∃ e, d.statusHistory = c.statusHistory ++ [e]) ∧
        (¬ ((updateComplaintStatus env w req now).2.isSuccess = true ∧ req.id = k) →
          d.statusHistory = c.statusHistory)) ∧
    (∀ (req : FeedbackRequest) (now : Nat),
      ∃ d, (submitFeedback env w req now).1.complaints k = some d ∧
        d.statusHistory = c.statusHistory) := by
  constructor
  · intro req now
    rcases updateComplaintStatus_cases env w req now with
      ⟨code, msg, h⟩ | ⟨c1, c0, hc1, _, hc0, h⟩
    · rw [h]
      refine ⟨c, hc, ?_, fun _ => rfl⟩
      rintro ⟨hs, _⟩
      simp [Response.isSuccess] at hs
    · rw [h, commitStatus_complaints, commitStatus_response]
      by_cases hk : k = req.id
      · subst hk
        rw [hc] at hc1
        cases hc1
        have h0 : c0.statusHistory = c.statusHistory := by
          rcases hc0 with h0 | ⟨mid, h0⟩ <;> simp [h0]
        refine ⟨_, saveComplaint_same _ _ _, ?_, ?_⟩
        · intro _
          exact ⟨_, by rw [applyStatusUpdate_statusHistory, h0]⟩
        · intro hn
          exact absurd ⟨rfl, rfl⟩ hn
      · rw [saveComplaint_other _ _ _ _ hk]
        refine ⟨c, hc, ?_, fun _ => rfl⟩
        rintro ⟨_, hid⟩
        exact absurd hid.symm hk
  · intro req now
    unfold submitFeedback
    split
    · exact ⟨c, hc, rfl⟩
    · split
      · exact ⟨c, hc, rfl⟩
      · rename_i c1 hc1
        split
        · exact ⟨c, hc, rfl⟩
        · split
          · exact ⟨c, hc, rfl⟩
          · split
            · exact ⟨c, hc, rfl⟩
            · by_cases hk : k = req.id
              · subst hk
                rw [hc] at hc1
                cases hc1
                exact ⟨_, saveComplaint_same _ _ _, rfl⟩
              · simp only []
                rw [saveComplaint_other _ _ _ _ hk]
                exact ⟨c, hc, rfl⟩

theorem statusHistory_append_only_witness :
    (∀ (req : StatusRequest) (now : Nat),
      ∃ d, (updateComplaintStatus sampleEnv sampleWorld req now).1.complaints "c1" = some d ∧
        (((updateComplaintStatus sampleEnv sampleWorld req now).2.isSuccess = true ∧
            req.id = "c1") →
          ∃ e, d.statusHistory = sampleComplaint.statusHistory ++ [e]) ∧
        (¬ ((updateComplaintStatus sampleEnv sampleWorld req now).2.isSuccess = true ∧
            req.id = "c1") →
          d.statusHistory = sampleComplaint.statusHistory)) ∧
    (∀ (req : FeedbackRequest) (now : Nat),
      ∃ d, (submitFeedback sampleEnv sampleWorld req now).1.complaints "c1" = some d ∧
        d.statusHistory = sampleComplaint.statusHistory) :=
  statusHistory_append_only sampleEnv sampleWorld "c1" sampleComplaint (by decide)

/-- C13: for an unlocked stored complaint, whatever its current status, and a
request without a memberId, `updateComplaintStatus` succeeds exactly when the
requested status is "Received", "In Progress", "Resolved" or "Closed", and
then stores the complaint with that status; for any other status it answers
400 with the invalid-status message and returns the collections unchanged. -/
theorem plain_update_succeeds_iff_valid_status (env : Env) (w : World)
    (req : StatusRequest) (now : Nat) (c : Complaint)
    (hid : env.isValidObjectId req.id = true) (hc : w.complaints req.id = some c)
    (hl : c.isLockedForUpdates = false) (hm : truthy req.memberId = false) :
    ((updateComplaintStatus env w req now).2.isSuccess = true ↔
      (req.status = "Received" ∨ req.status = "In Progress" ∨ req.status = "Resolved" ∨
        req.status = "Closed")) ∧
    ((updateComplaintStatus env w req now).2.isSuccess = true →
      ∃ d, (updateComplaintStatus env w req now).1.complaints req.id = some d ∧
        d.currentStatus = req.status) ∧
    ((updateComplaintStatus env w req now).2.isSuccess = false →
      updateComplaintStatus env w req now = (w, Response.fail 400 msgInvalidStatus)) := by
  have hmem : req.status ∈ validStatuses ↔
      (req.status = "Received" ∨ req.status = "In Progress" ∨ req.status = "Resolved" ∨
        req.status = "Closed") := by
    simp [validStatuses]
  by_cases hst : req.status ∈ validStatuses
  · have hr := updateComplaintStatus_plain env w req now c hid hc hl hst hm
    rw [hr]
    refine ⟨?_, ?_, ?_⟩
    · simp only [commitStatus_response, Response.isSuccess, true_iff]
      exact hmem.mp hst
    · intro _
      refine ⟨applyStatusUpdate req now c, ?_, applyStatusUpdate_currentStatus _ _ _⟩
      rw [commitStatus_complaints]
      exact saveComplaint_same _ _ _
    · simp [commitStatus_response, Response.isSuccess]
  · have hr : updateComplaintStatus env w req now =
        (w, Response.fail 400 msgInvalidStatus) := by
      unfold updateComplaintStatus
      simp only [hid, hc, hl]
      simp [hst]
    rw [hr]
    refine ⟨?_, ?_, fun _ => rfl⟩
    · simp only [Response.isSuccess, Bool.false_eq_true, false_iff]
      exact fun h => hst (hmem.mpr h)
    · simp [Response.isSuccess]

theorem plain_update_succeeds_iff_valid_status_witness :
    ((updateComplaintStatus sampleEnv sampleWorld sampleClose 7).2.isSuccess = true ↔
      (sampleClose.status = "Received" ∨ sampleClose.status = "In Progress" ∨
        sampleClose.status = "Resolved" ∨ sampleClose.status = "Closed")) ∧
    ((updateComplaintStatus sampleEnv sampleWorld sampleClose 7).2.isSuccess = true →
      ∃ d, (updateComplaintStatus sampleEnv sampleWorld sampleClose 7).1.complaints
          sampleClose.id = some d ∧ d.currentStatus = sampleClose.status) ∧
    ((updateComplaintStatus sampleEnv sampleWorld sampleClose 7).2.isSuccess = false →
      updateComplaintStatus sampleEnv sampleWorld sampleClose 7 =
        (sampleWorld, Response.fail 400 msgInvalidStatus)) :=
  plain_update_succeeds_iff_valid_status sampleEnv sampleWorld sampleClose 7 sampleComplaint
    (by decide) (by decide) (by decide) (by decide)

/-! ### Timelines -/

theorem addInitialEntry_nil (w : World) (c : Complaint) :
    addInitialEntry w c [] = [initialEntry w c] := by
  simp [addInitialEntry]

theorem addInitialEntry_of_ne_nil (w : World) (c : Complaint) (t : List TimelineEntry)
    (h : t ≠ []) : addInitialEntry w c t = t := by
  cases t with
  | nil => exact absurd rfl h
  | cons a t => simp [addInitialEntry]

theorem sortTimeline_sorted (t : List TimelineEntry) :
    (sortTimeline t).Sorted (fun a b => a.timestamp ≤ b.timestamp) :=
  List.sorted_insertionSort notAfter t

theorem sortTimeline_perm (t : List TimelineEntry) : (sortTimeline t).Perm t :=
  List.perm_insertionSort notAfter t

theorem getComplaintTimeline_found (users : List User) (w : World) (id user : String)
    (c : Complaint) (hc : w.complaints id = some c) (hown : c.student = user) :
    getComplaintTimeline users w id user =
      Reply.ok 200 { timeline := sortTimeline
                       (addInitialEntry w c (c.statusHistory.map (studentEntry users w))),
                     currentAssignedTo := c.assignedTo.bind w.members,
                     student := findUser users c.student } := by
  simp [getComplaintTimeline, hc, hown, Option.filter]

theorem adminGetTimeline_found (env : Env) (w : World) (id : String) (c : Complaint)
    (hid : env.isValidObjectId id = true) (hc : w.complaints id = some c) :
    adminGetTimeline env w id =
      Reply.ok 200 (addInitialEntry w c (c.statusHistory.map (adminEntry w))) := by
  simp [adminGetTimeline, hid, hc]

/-- C14: for a stored complaint read by its owner (student timeline) and
under a well-formed id (admin timeline): when its statusHistory is empty both
timelines consist of one entry with the complaint's currentStatus, its
createdAt and the note "Complaint created"; when it is not empty both
timelines have as many entries as the history and consist of the images of
the history entries only. -/
theorem timeline_initial_entry (env : Env) (users : List User) (w : World)
    (id user : String) (c : Complaint) (hid : env.isValidObjectId id = true)
    (hc : w.complaints id = some c) (hown : c.student = user) :
    ∃ st tl, getComplaintTimeline users w id user = Reply.ok 200 st ∧
      adminGetTimeline env w id = Reply.ok 200 tl ∧
      (c.statusHistory = [] →
        ∃ e a, st.timeline = [e] ∧ tl = [a] ∧
          e.status = c.currentStatus ∧ e.timestamp = c.createdAt ∧
          e.note = "Complaint created" ∧
          a.status = c.currentStatus ∧ a.timestamp = c.createdAt ∧
          a.note = "Complaint created") ∧
      (c.statusHistory ≠ [] →
        st.timeline.length = c.statusHistory.length ∧
        tl.length = c.statusHistory.length ∧
        st.timeline.Perm (c.statusHistory.map (studentEntry users w)) ∧
        tl = c.statusHistory.map (adminEntry w)) := by
  refine ⟨_, _, getComplaintTimeline_found users w id user c hc hown,
    adminGetTimeline_found env w id c hid hc, ?_, ?_⟩
  · intro hempty
    refine ⟨initialEntry w c, initialEntry w c, ?_, ?_, rfl, rfl, rfl, rfl, rfl, rfl⟩
    · simp [hempty, addInitialEntry_nil, sortTimeline]
    · simp [hempty, addInitialEntry_nil]
  · intro hne
    have h1 : c.statusHistory.map (studentEntry users w) ≠ [] := by simpa using hne
    have h2 : c.statusHistory.map (adminEntry w) ≠ [] := by simpa using hne
    simp only [addInitialEntry_of_ne_nil _ _ _ h1, addInitialEntry_of_ne_nil _ _ _ h2]
    refine ⟨?_, by simp, sortTimeline_perm _, trivial⟩
    rw [(sortTimeline_perm _).length_eq]
    simp

theorem timeline_initial_entry_witness :
    ∃ st tl, getComplaintTimeline sampleUsers sampleWorld "c1" "s1" = Reply.ok 200 st ∧
      adminGetTimeline sampleEnv sampleWorld "c1" = Reply.ok 200 tl ∧
      (sampleComplaint.statusHistory = [] →
        ∃ e a, st.timeline = [e] ∧ tl = [a] ∧
          e.status = sampleComplaint.currentStatus ∧ e.timestamp = sampleComplaint.createdAt ∧
          e.note = "Complaint created" ∧
          a.status = sampleComplaint.currentStatus ∧ a.timestamp = sampleComplaint.createdAt ∧
          a.note = "Complaint created") ∧
      (sampleComplaint.statusHistory ≠ [] →
        st.timeline.length = sampleComplaint.statusHistory.length ∧
        tl.length = sampleComplaint.statusHistory.length ∧
        st.timeline.Perm (sampleComplaint.statusHistory.map
          (studentEntry sampleUsers sampleWorld)) ∧
        tl = sampleComplaint.statusHistory.map (adminEntry sampleWorld)) :=
  timeline_initial_entry sampleEnv sampleUsers sampleWorld "c1" "s1" sampleComplaint
    (by decide) (by decide) (by decide)

/-- C15, counterexample: for the sample complaint, whose statusHistory is
empty, the student timeline holds the synthesized entry, so it is not a
permutation of the (empty) list of images of the history entries. -/
theorem student_timeline_not_perm_of_empty_history :
    ∃ st, getComplaintTimeline sampleUsers sampleWorld "c1" "s1" = Reply.ok 200 st ∧
      ¬ (st.timeline.map (fun e => (e.status, e.note, e.timestamp))).Perm
          (sampleComplaint.statusHistory.map (fun h => (h.status, h.note, h.timestamp))) := by
  refine ⟨_, getComplaintTimeline_found sampleUsers sampleWorld "c1" "s1" sampleComplaint
    (by decide) (by decide), ?_⟩
  intro h
  have hlen := h.length_eq
  revert hlen
  decide

/-- C15, amended: for a stored complaint read by its owner, also one whose
history entries are stored out of timestamp order, the student timeline is
sorted ascending by timestamp; when the statusHistory is not empty it is a
permutation of the images of the history entries, each with the status, note
and timestamp of its entry; when the statusHistory is empty it is the single
synthesized entry. -/
theorem student_timeline_sorted_perm (users : List User) (w : World) (id user : String)
    (c : Complaint) (hc : w.complaints id = some c) (hown : c.student = user) :
    ∃ st, getComplaintTimeline users w id user = Reply.ok 200 st ∧
      st.timeline.Sorted (fun a b => a.timestamp ≤ b.timestamp) ∧
      (c.statusHistory ≠ [] →
        (st.timeline.map (fun e => (e.status, e.note, e.timestamp))).Perm
          (c.statusHistory.map (fun h => (h.status, h.note, h.timestamp)))) ∧
      (c.statusHistory = [] → st.timeline = [initialEntry w c]) := by
  refine ⟨_, getComplaintTimeline_found users w id user c hc hown,
    sortTimeline_sorted _, ?_, ?_⟩
  · intro hne
    have h1 : c.statusHistory.map (studentEntry users w) ≠ [] := by simpa using hne
    simp only [addInitialEntry_of_ne_nil _ _ _ h1]
    have hp := (sortTimeline_perm (c.statusHistory.map (studentEntry users w))).map
      (fun e => (e.status, e.note, e.timestamp))
    have hmap : (c.statusHistory.map (studentEntry users w)).map
        (fun e => (e.status, e.note, e.timestamp)) =
        c.statusHistory.map (fun h => (h.status, h.note, h.timestamp)) := by
      rw [List.map_map]
      rfl
    rw [hmap] at hp
    exact hp
  · intro hempty
    simp [hempty, addInitialEntry_nil, sortTimeline]

theorem student_timeline_sorted_perm_witness :
    ∃ st, getComplaintTimeline sampleUsers sampleTimelineWorld "c3" "s1" = Reply.ok 200 st ∧
      st.timeline.Sorted (fun a b => a.timestamp ≤ b.timestamp) ∧
      (sampleBackfilled.statusHistory ≠ [] →
        (st.timeline.map (fun e => (e.status, e.note, e.timestamp))).Perm
          (sampleBackfilled.statusHistory.map (fun h => (h.status, h.note, h.timestamp)))) ∧
      (sampleBackfilled.statusHistory = [] →
        st.timeline = [initialEntry sampleTimelineWorld sampleBackfilled]) :=
  student_timeline_sorted_perm sampleUsers sampleTimelineWorld "c3" "s1" sampleBackfilled
    (by decide) (by decide)

/-- C16: evaluation of the code at the complaint `c3`, whose history entries
are stored with timestamps 5 and 3 in this order: the admin timeline keeps the
stored order and is not sorted ascending by timestamp, while the student
timeline of the same complaint is sorted. -/
theorem admin_timeline_not_sorted :
    ∃ tl st, adminGetTimeline sampleEnv sampleTimelineWorld "c3" = Reply.ok 200 tl ∧
      tl.map (fun e => e.timestamp) = [5, 3] ∧
      ¬ tl.Sorted (fun a b => a.timestamp ≤ b.timestamp) ∧
      getComplaintTimeline sampleUsers sampleTimelineWorld "c3" "s1" = Reply.ok 200 st ∧
      st.timeline.map (fun e => e.timestamp) = [3, 5] := by
  refine ⟨_, _, adminGetTimeline_found sampleEnv sampleTimelineWorld "c3" sampleBackfilled
    (by decide) (by decide), by decide, ?_,
    getComplaintTimeline_found sampleUsers sampleTimelineWorld "c3" "s1" sampleBackfilled
    (by decide) (by decide), by decide⟩
  intro h
  have h2 : (addInitialEntry sampleTimelineWorld sampleBackfilled
      (sampleBackfilled.statusHistory.map (adminEntry sampleTimelineWorld))).map
      (fun e => e.timestamp) = [5, 3] := by decide
  have h3 := List.Pairwise.map (fun e : TimelineEntry => e.timestamp)
    (fun _ _ hab => hab) h
  rw [h2] at h3
  revert h3
  decide

/-! ### Notifications -/

theorem applyStatusEffects_student (s old : String) (c : Complaint) :
    (applyStatusEffects s old c).student = c.student := by
  unfold applyStatusEffects
  split
  · rfl
  · split <;> rfl

theorem applyStatusUpdate_student (req : StatusRequest) (now : Nat) (c : Complaint) :
    (applyStatusUpdate req now c).student = c.student := by
  simp [applyStatusUpdate, applyStatusEffects_student]

theorem commitStatus_members (env : Env) (w : World) (req : StatusRequest) (now : Nat)
    (c : Complaint) : (commitStatus env w req now c).1.members = w.members := by
  simp [commitStatus, createNotification_members, World.saveComplaint]

theorem findUser_id (users : List User) (id : String) (u : User)
    (h : findUser users id = some u) : u.id = id := by
  have hp := List.find?_some h
  simpa using hp

theorem commitStatus_notificationLog (env : Env) (w : World) (req : StatusRequest)
    (now : Nat) (c : Complaint) :
    (commitStatus env w req now c).1.notificationLog =
      w.notificationLog ++
        [(statusNotification w req (applyStatusUpdate req now c),
          env.notificationSaves (statusNotification w req (applyStatusUpdate req now c)))] := by
  have hn : statusNotification (w.saveComplaint req.id (applyStatusUpdate req now c)) req
      (applyStatusUpdate req now c) =
      statusNotification w req (applyStatusUpdate req now c) := rfl
  unfold commitStatus createNotification
  simp only [hn]
  split <;> simp_all [World.saveComplaint]

/-- The run of `updateComplaintStatus` is its checks followed, when they pass,
by the commit. -/
theorem updateComplaintStatus_eq_checks (env : Env) (w : World) (req : StatusRequest)
    (now : Nat) :
    updateComplaintStatus env w req now =
      match statusChecks env.isValidObjectId w req with
      | Except.error (code, msg) => (w, Response.fail code msg)
      | Except.ok c => commitStatus env w req now c := by
  unfold updateComplaintStatus statusChecks
  split
  · rfl
  · split
    · rfl
    · split
      · rfl
      · split
        · rfl
        · split
          · simp only []
            split
            · rfl
            · split
              · rfl
              · split
                · rfl
                · split <;> rfl
          · rfl

/-- C17, counterexample: in the sample collections without any user
document, the accepted update of `c1`, whose student is `s1`, makes its one
notification attempt with no recipient. -/
theorem notification_without_recipient :
    (sampleOrphanWorld.complaints "c1").map (fun c => c.student) = some "s1" ∧
    (updateComplaintStatus sampleEnv sampleOrphanWorld sampleAssign 7).2.isSuccess = true ∧
    (updateComplaintStatus sampleEnv sampleOrphanWorld sampleAssign 7).1.notificationLog.map
      (fun e => e.1.recipient) = [none] := by
  decide

/-- C17, amended: `createNotification` returns `null` when the save fails
instead of throwing. Two runs of `updateComplaintStatus` that differ only in
whether notifications can be saved give the same response, the same stored
complaints and the same members. A successful run makes exactly one
notification attempt, whose recipient is the populated student of the
complaint: the complaint's student when that user document exists, nobody
otherwise; a rejected run makes none. -/
theorem notification_failure_absorbed (env other : Env) (w : World) (req : StatusRequest)
    (now : Nat) (hv : other.isValidObjectId = env.isValidObjectId) :
    (∀ (v : World) (data : Notification), env.notificationSaves data = false →
      (createNotification env v data).2 = none) ∧
    (updateComplaintStatus other w req now).2 = (updateComplaintStatus env w req now).2 ∧
    (updateComplaintStatus other w req now).1.complaints =
      (updateComplaintStatus env w req now).1.complaints ∧
    (updateComplaintStatus other w req now).1.members =
      (updateComplaintStatus env w req now).1.members ∧
    ((updateComplaintStatus env w req now).2.isSuccess = true →
      ∃ c n, w.complaints req.id = some c ∧
        n.recipient = (findUser w.users c.student).map (fun u => u.id) ∧
        ((∃ u, findUser w.users c.student = some u) → n.recipient = some c.student) ∧
        (updateComplaintStatus env w req now).1.notificationLog =
          w.notificationLog ++ [(n, env.notificationSaves n)]) ∧
    ((updateComplaintStatus env w req now).2.isSuccess = false →
      (updateComplaintStatus env w req now).1.notificationLog = w.notificationLog) := by
  refine ⟨?_, ?_, ?_, ?_, ?_, ?_⟩
  · intro v data hfail
    simp [createNotification, hfail]
  · rw [updateComplaintStatus_eq_checks other, updateComplaintStatus_eq_checks env, hv]
    rcases statusChecks env.isValidObjectId w req with ⟨code, msg⟩ | c
    · rfl
    · simp [commitStatus_response]
  · rw [updateComplaintStatus_eq_checks other, updateComplaintStatus_eq_checks env, hv]
    rcases statusChecks env.isValidObjectId w req with ⟨code, msg⟩ | c
    · rfl
    · simp [commitStatus_complaints]
  · rw [updateComplaintStatus_eq_checks other, updateComplaintStatus_eq_checks env, hv]
    rcases statusChecks env.isValidObjectId w req with ⟨code, msg⟩ | c
    · rfl
    · simp [commitStatus_members]
  · intro hs
    rcases updateComplaintStatus_cases env w req now with
      ⟨code, msg, h⟩ | ⟨c, c0, hc, _, hc0, h⟩
    · rw [h] at hs
      simp [Response.isSuccess] at hs
    · have h0 : c0.student = c.student := by
        rcases hc0 with h0 | ⟨mid, h0⟩ <;> simp [h0]
      have hrec : (statusNotification w req (applyStatusUpdate req now c0)).recipient =
          (findUser w.users c.student).map (fun u => u.id) := by
        simp [statusNotification, populateStudent, applyStatusUpdate_student, h0]
      refine ⟨c, statusNotification w req (applyStatusUpdate req now c0), hc, hrec, ?_, ?_⟩
      · rintro ⟨u, hu⟩
        rw [hrec, hu]
        simp [findUser_id _ _ _ hu]
      · rw [h, commitStatus_notificationLog]
  · intro hs
    rcases updateComplaintStatus_cases env w req now with
      ⟨code, msg, h⟩ | ⟨c, c0, hc, _, hc0, h⟩
    · rw [h]
    · rw [h, commitStatus_response] at hs
      simp [Response.isSuccess] at hs

theorem notification_failure_absorbed_witness :
    (∀ (v : World) (data : Notification), sampleEnv.notificationSaves data = false →
      (createNotification sampleEnv v data).2 = none) ∧
    (updateComplaintStatus sampleFailingEnv sampleWorld sampleAssign 7).2 =
      (updateComplaintStatus sampleEnv sampleWorld sampleAssign 7).2 ∧
    (updateComplaintStatus sampleFailingEnv sampleWorld sampleAssign 7).1.complaints =
      (updateComplaintStatus sampleEnv sampleWorld sampleAssign 7).1.complaints ∧
    (updateComplaintStatus sampleFailingEnv sampleWorld sampleAssign 7).1.members =
      (updateComplaintStatus sampleEnv sampleWorld sampleAssign 7).1.members ∧
    ((updateComplaintStatus sampleEnv sampleWorld sampleAssign 7).2.isSuccess = true →
      ∃ c n, sampleWorld.complaints sampleAssign.id = some c ∧
        n.recipient = (findUser sampleWorld.users c.student).map (fun u => u.id) ∧
        ((∃ u, findUser sampleWorld.users c.student = some u) →
          n.recipient = some c.student) ∧
        (updateComplaintStatus sampleEnv sampleWorld sampleAssign 7).1.notificationLog =
          sampleWorld.notificationLog ++ [(n, sampleEnv.notificationSaves n)]) ∧
    ((updateComplaintStatus sampleEnv sampleWorld sampleAssign 7).2.isSuccess = false →
      (updateComplaintStatus sampleEnv sampleWorld sampleAssign 7).1.notificationLog =
        sampleWorld.notificationLog) :=
  notification_failure_absorbed sampleEnv sampleFailingEnv sampleWorld sampleAssign 7 rfl

theorem foldl_deliver (delivers : Notice → Bool) (f : User → Notice) (admins : List User) :
    ∀ log : List (Notice × Bool),
      admins.foldl (fun log admin => deliver delivers log (f admin)) log =
        log ++ admins.map (fun a => (f a, delivers (f a))) := by
  induction admins with
  | nil => intro log; simp
  | cons a rest ih =>
    intro log
    rw [List.foldl_cons, ih]
    simp [deliver]

/-- C18: for a complaint of the caller that is "Resolved" and has no
feedback, `giveFeedback` answers with success whatever deliveries fail. With
`isSatisfied = false` it makes one delivery attempt for each admin, in the
order of the admin list, each recorded with its own outcome; with
`isSatisfied = true` it makes no attempt. -/
theorem dissatisfied_feedback_fan_out (delivers : Notice → Bool) (users : List User)
    (w : World) (req : FeedbackRequest) (userName : String) (now : Nat) (c : Complaint)
    (hc : w.complaints req.id = some c) (hown : c.student = req.user)
    (hres : c.currentStatus = "Resolved") (hfb : c.feedback = none) :
    (giveFeedback delivers users w req userName now).response.isSuccess = true ∧
    (req.isSatisfied = false →
      (giveFeedback delivers users w req userName now).deliveries =
        (findAdmins users).map (fun a =>
          (reopenedNotice a userName req.id, delivers (reopenedNotice a userName req.id))) ∧
      (giveFeedback delivers users w req userName now).deliveries.map
        (fun d => d.1.recipient) = (findAdmins users).map (fun a => a.id)) ∧
    (req.isSatisfied = true →
      (giveFeedback delivers users w req userName now).deliveries = []) := by
  rcases hsat : req.isSatisfied with _ | _
  · simp [giveFeedback, hc, hown, Option.filter, addFeedback, hres, hfb, hsat,
      foldl_deliver, Response.isSuccess, reopenedNotice, Function.comp_def]
  · simp [giveFeedback, hc, hown, Option.filter, addFeedback, hres, hfb, hsat,
      Response.isSuccess]

theorem dissatisfied_feedback_fan_out_witness :
    (giveFeedback sampleDelivers sampleUsers sampleWorld sampleDissatisfied "Asha"
      5).response.isSuccess = true ∧
    (sampleDissatisfied.isSatisfied = false →
      (giveFeedback sampleDelivers sampleUsers sampleWorld sampleDissatisfied "Asha"
        5).deliveries =
        (findAdmins sampleUsers).map (fun a =>
          (reopenedNotice a "Asha" sampleDissatisfied.id,
           sampleDelivers (reopenedNotice a "Asha" sampleDissatisfied.id))) ∧
      (giveFeedback sampleDelivers sampleUsers sampleWorld sampleDissatisfied "Asha"
        5).deliveries.map (fun d => d.1.recipient) =
        (findAdmins sampleUsers).map (fun a => a.id)) ∧
    (sampleDissatisfied.isSatisfied = true →
      (giveFeedback sampleDelivers sampleUsers sampleWorld sampleDissatisfied "Asha"
        5).deliveries = []) :=
  dissatisfied_feedback_fan_out sampleDelivers sampleUsers sampleWorld sampleDissatisfied
    "Asha" 5 sampleComplaint (by decide) (by decide) (by decide) (by decide)

/-- C19, counterexample: the complaint `c2` is locked, "Resolved" and has
no feedback; the owner's `submitFeedback` succeeds on it and writes its
feedback. -/
theorem locked_complaint_accepts_feedback :
    (sampleWorld.complaints "c2").map (fun c => (c.isLockedForUpdates, c.feedback)) =
      some (true, none) ∧
    (submitFeedback sampleEnv sampleWorld sampleLockedFeedback 5).2.isSuccess = true ∧
    ((submitFeedback sampleEnv sampleWorld sampleLockedFeedback 5).1.complaints "c2").map
      (fun c => (c.isLockedForUpdates, c.feedback)) =
      some (true, some { isSatisfied := true, comment := "thanks", timestamp := 5 }) := by
  decide

/-- C19, amended: for a stored complaint with `isLockedForUpdates` set, in
any status, no `updateComplaintStatus` call changes any of its fields, with
or without feedback; no `submitFeedback` call changes any of its fields when
the complaint has feedback, and more generally unless the complaint is
"Resolved", without feedback and owned by the caller. -/
theorem locked_complaint_unchanged (env : Env) (w : World) (k : String) (c : Complaint)
    (hc : w.complaints k = some c) (hl : c.isLockedForUpdates = true) :
    (∀ (req : StatusRequest) (now : Nat),
      (updateComplaintStatus env w req now).1.complaints k = some c) ∧
    (c.feedback ≠ none → ∀ (req : FeedbackRequest) (now : Nat),
      (submitFeedback env w req now).1.complaints k = some c) ∧
    (∀ (req : FeedbackRequest) (now : Nat),
      ¬ (c.student = req.user ∧ c.currentStatus = "Resolved" ∧ c.feedback = none) →
      (submitFeedback env w req now).1.complaints k = some c) := by
  have hgen : ∀ (req : FeedbackRequest) (now : Nat),
      ¬ (c.student = req.user ∧ c.currentStatus = "Resolved" ∧ c.feedback = none) →
      (submitFeedback env w req now).1.complaints k = some c := by
    intro req now hnot
    unfold submitFeedback
    split
    · exact hc
    · split
      · exact hc
      · rename_i c1 hc1
        split
        · exact hc
        · rename_i hown
          split
          · exact hc
          · rename_i hres
            split
            · exact hc
            · rename_i hfb
              by_cases hk : k = req.id
              · subst hk
                rw [hc] at hc1
                cases hc1
                exfalso
                apply hnot
                refine ⟨by simpa using hown, by simpa using hres, ?_⟩
                cases hf : c.feedback with
                | none => rfl
                | some f => simp [hf] at hfb
              · simp only []
                rw [saveComplaint_other _ _ _ _ hk]
                exact hc
  refine ⟨fun req now => updateComplaintStatus_keeps_locked env w req now k c hc hl, ?_, hgen⟩
  intro hfb req now
  exact hgen req now (fun h => hfb h.2.2)

theorem locked_complaint_unchanged_witness :
    (∀ (req : StatusRequest) (now : Nat),
      (updateComplaintStatus sampleEnv sampleClosedWorld req now).1.complaints "c4" =
        some sampleClosed) ∧
    (sampleClosed.feedback ≠ none → ∀ (req : FeedbackRequest) (now : Nat),
      (submitFeedback sampleEnv sampleClosedWorld req now).1.complaints "c4" =
        some sampleClosed) ∧
    (∀ (req : FeedbackRequest) (now : Nat),
      ¬ (sampleClosed.student = req.user ∧ sampleClosed.currentStatus = "Resolved" ∧
          sampleClosed.feedback = none) →
      (submitFeedback sampleEnv sampleClosedWorld req now).1.complaints "c4" =
        some sampleClosed) :=
  locked_complaint_unchanged sampleEnv sampleClosedWorld "c4" sampleClosed (by decide)
    (by decide)

/-! ### Creation -/

theorem foldl_createNotification_complaints (env : Env) (f : User → Notification)
    (admins : List User) :
    ∀ w : World,
      (admins.foldl (fun w admin => (createNotification env w (f admin)).1) w).complaints =
        w.complaints := by
  induction admins with
  | nil => intro w; rfl
  | cons a rest ih =>
    intro w
    rw [List.foldl_cons, ih, createNotification_complaints]

theorem jsTrim_empty : jsTrim "" = "" := by decide

/-- The third check of `createComplaint` fails exactly for a description that
is missing or blank after trimming. -/
theorem description_rejected_iff (description : Option String) :
    (!truthy description || jsTrim (description.getD "") == "") = true ↔
      (description = none ∨ ∃ d, description = some d ∧ jsTrim d = "") := by
  cases description with
  | none => simp [truthy]
  | some d =>
    by_cases hd : d = ""
    · subst hd
      simp [truthy, jsTrim_empty]
    · simp [truthy, hd]

/-- What trimming with the predicate `p` does to a list of characters: it
removes a prefix and a suffix made of `p`-characters only, and what is left
neither starts nor ends with a `p`-character. -/
theorem trim_chars_spec (p : Char → Bool) (l : List Char) :
    ∃ pre post : List Char,
      l = pre ++ ((l.dropWhile p).reverse.dropWhile p).reverse ++ post ∧
      (∀ x ∈ pre, p x = true) ∧ (∀ x ∈ post, p x = true) ∧
      (∀ x, ((l.dropWhile p).reverse.dropWhile p).reverse.head? = some x → p x = false) ∧
      (∀ x, ((l.dropWhile p).reverse.dropWhile p).reverse.getLast? = some x →
        p x = false) := by
  have hsplit : l.dropWhile p =
      ((l.dropWhile p).reverse.dropWhile p).reverse ++
        ((l.dropWhile p).reverse.takeWhile p).reverse := by
    have h := List.takeWhile_append_dropWhile p (l.dropWhile p).reverse
    have h2 := congrArg List.reverse h
    rw [List.reverse_append, List.reverse_reverse] at h2
    exact h2.symm
  refine ⟨l.takeWhile p, ((l.dropWhile p).reverse.takeWhile p).reverse, ?_, ?_, ?_, ?_, ?_⟩
  · rw [List.append_assoc, ← hsplit, List.takeWhile_append_dropWhile]
  · intro x hx
    exact List.mem_takeWhile_imp hx
  · intro x hx
    exact List.mem_takeWhile_imp (List.mem_reverse.mp hx)
  · intro x hx
    have hne : ((l.dropWhile p).reverse.dropWhile p).reverse ≠ [] := by
      intro h
      rw [h] at hx
      simp at hx
    have hhead : (l.dropWhile p).head? = some x := by
      rw [hsplit, List.head?_append_of_ne_nil _ hne]
      exact hx
    have hnot := List.head?_dropWhile_not p l
    rw [hhead] at hnot
    exact hnot
  · intro x hx
    rw [List.getLast?_reverse] at hx
    have hnot := List.head?_dropWhile_not p (l.dropWhile p).reverse
    rw [hx] at hnot
    exact hnot

/-- C20, counterexample: with a schema that accepts only the categories
"Maintenance", "Food" and "Security", the request of an existing student with
category "Laundry" and description "wet floor" meets none of the three
conditions, yet it is answered 400 and no complaint is created. -/
theorem createComplaint_rejected_by_schema :
    truthy sampleLaundry.category = true ∧
    ¬ (sampleLaundry.category = some "Maintenance" ∧
        truthy sampleLaundry.subCategory = false) ∧
    sampleLaundry.description = some "wet floor" ∧ jsTrim "wet floor" ≠ "" ∧
    findUser sampleUsers "s1" ≠ none ∧
    createComplaint sampleEnv sampleStrictSchema sampleUsers sampleWorld sampleLaundry "s1"
      "c9" 8 = (sampleWorld, Response.fail 400 "Complaint validation failed") :=
  ⟨by decide, by decide, rfl, by decide, by decide, rfl⟩

/-- C20, amended: for an existing student, `createComplaint` answers 400 and
returns the collections unchanged exactly when the category is missing or
empty, or the category is "Maintenance" and the subCategory is missing or
empty, or the description is missing or blank after trimming, or the schema
rejects the document built from the request; the first three are checked in
this order, each with its own message, before the schema. Otherwise it answers
201 and stores a complaint with the student, category and subCategory of the
request and the trimmed description: the description without its leading and
trailing white space. -/
theorem createComplaint_validation (env : Env) (schema : Complaint → Option String)
    (users : List User) (w : World) (body : ComplaintBody) (studentId newId : String)
    (now : Nat) (u : User) (hu : findUser users studentId = some u) :
    ((∃ msg, createComplaint env schema users w body studentId newId now =
        (w, Response.fail 400 msg)) ↔
      (truthy body.category = false ∨
        (body.category = some "Maintenance" ∧ truthy body.subCategory = false) ∨
        (body.description = none ∨ ∃ d, body.description = some d ∧ jsTrim d = "") ∨
        ∃ cat d msg, body.category = some cat ∧ body.description = some d ∧
          schema (newComplaint studentId cat body.subCategory (jsTrim d) now) = some msg)) ∧
    (truthy body.category = false →
      createComplaint env schema users w body studentId newId now =
        (w, Response.fail 400 msgCategoryRequired)) ∧
    (truthy body.category = true → body.category = some "Maintenance" →
      truthy body.subCategory = false →
      createComplaint env schema users w body studentId newId now =
        (w, Response.fail 400 msgSubCategoryRequired)) ∧
    (truthy body.category = true →
      ¬ (body.category = some "Maintenance" ∧ truthy body.subCategory = false) →
      (body.description = none ∨ ∃ d, body.description = some d ∧ jsTrim d = "") →
      createComplaint env schema users w body studentId newId now =
        (w, Response.fail 400 msgDescriptionRequired)) ∧
    (∀ cat d, body.category = some cat → body.description = some d →
      truthy body.category = true →
      ¬ (body.category = some "Maintenance" ∧ truthy body.subCategory = false) →
      jsTrim d ≠ "" →
      (∀ msg, schema (newComplaint studentId cat body.subCategory (jsTrim d) now) = some msg →
        createComplaint env schema users w body studentId newId now =
          (w, Response.fail 400 msg)) ∧
      (schema (newComplaint studentId cat body.subCategory (jsTrim d) now) = none →
        ∃ c, (createComplaint env schema users w body studentId newId now).2 =
            Response.json 201 c ∧
          (createComplaint env schema users w body studentId newId now).1.complaints newId =
            some c ∧
          c.student = studentId ∧ c.category = cat ∧ c.subCategory = body.subCategory ∧
          c.description = jsTrim d ∧
          ∃ pre post : List Char, d.toList = pre ++ c.description.toList ++ post ∧
            (∀ x ∈ pre, jsWhitespace x = true) ∧ (∀ x ∈ post, jsWhitespace x = true) ∧
            (∀ x, c.description.toList.head? = some x → jsWhitespace x = false) ∧
            (∀ x, c.description.toList.getLast? = some x → jsWhitespace x = false))) := by
  have h1 : truthy body.category = false →
      createComplaint env schema users w body studentId newId now =
        (w, Response.fail 400 msgCategoryRequired) := by
    intro h
    simp [createComplaint, h]
  have h2 : truthy body.category = true → body.category = some "Maintenance" →
      truthy body.subCategory = false →
      createComplaint env schema users w body studentId newId now =
        (w, Response.fail 400 msgSubCategoryRequired) := by
    intro ha hb hc
    unfold createComplaint
    simp only [ha, hc]
    simp [hb]
  have hsub : ¬ (body.category = some "Maintenance" ∧ truthy body.subCategory = false) →
      (body.category == some "Maintenance" && !truthy body.subCategory) = false := by
    intro hb
    rcases hx : (body.category == some "Maintenance" && !truthy body.subCategory) with _ | _
    · rfl
    · exfalso
      apply hb
      simpa using hx
  have h3 : truthy body.category = true →
      ¬ (body.category = some "Maintenance" ∧ truthy body.subCategory = false) →
      (body.description = none ∨ ∃ d, body.description = some d ∧ jsTrim d = "") →
      createComplaint env schema users w body studentId newId now =
        (w, Response.fail 400 msgDescriptionRequired) := by
    intro ha hb hc
    have hc2 := (description_rejected_iff body.description).mpr hc
    unfold createComplaint
    simp only [ha, hsub hb, hc2]
    simp
  have hrun : ∀ cat d, body.category = some cat → body.description = some d →
      truthy body.category = true →
      ¬ (body.category = some "Maintenance" ∧ truthy body.subCategory = false) →
      jsTrim d ≠ "" →
      createComplaint env schema users w body studentId newId now =
        match schema (newComplaint studentId cat body.subCategory (jsTrim d) now) with
        | some message => (w, Response.fail 400 message)
        | none =>
          ((findAdmins users).foldl
            (fun w admin => (createNotification env w
              (newComplaintNotification admin studentId newId
                (newComplaint studentId cat body.subCategory (jsTrim d) now))).1)
            (w.saveComplaint newId
              (newComplaint studentId cat body.subCategory (jsTrim d) now)),
           Response.json 201 (newComplaint studentId cat body.subCategory (jsTrim d) now)) := by
    intro cat d hcat hd ha hb ht
    have hc2 : (!truthy body.description || jsTrim (body.description.getD "") == "") =
        false := by
      rcases hx : (!truthy body.description || jsTrim (body.description.getD "") == "")
        with _ | _
      · rfl
      · exfalso
        rcases (description_rejected_iff body.description).mp hx with hn | ⟨d2, hd2, ht2⟩
        · rw [hd] at hn
          cases hn
        · rw [hd] at hd2
          cases hd2
          exact ht ht2
    unfold createComplaint
    simp only [ha, hsub hb, hc2, hu]
    simp only [hcat, hd, Option.getD_some]
    rfl
  have h5 : ∀ cat d, body.category = some cat → body.description = some d →
      truthy body.category = true →
      ¬ (body.category = some "Maintenance" ∧ truthy body.subCategory = false) →
      jsTrim d ≠ "" →
      (∀ msg, schema (newComplaint studentId cat body.subCategory (jsTrim d) now) = some msg →
        createComplaint env schema users w body studentId newId now =
          (w, Response.fail 400 msg)) ∧
      (schema (newComplaint studentId cat body.subCategory (jsTrim d) now) = none →
        ∃ c, (createComplaint env schema users w body studentId newId now).2 =
            Response.json 201 c ∧
          (createComplaint env schema users w body studentId newId now).1.complaints newId =
            some c ∧
          c.student = studentId ∧ c.category = cat ∧ c.subCategory = body.subCategory ∧
          c.description = jsTrim d ∧
          ∃ pre post : List Char, d.toList = pre ++ c.description.toList ++ post ∧
            (∀ x ∈ pre, jsWhitespace x = true) ∧ (∀ x ∈ post, jsWhitespace x = true) ∧
            (∀ x, c.description.toList.head? = some x → jsWhitespace x = false) ∧
            (∀ x, c.description.toList.getLast? = some x → jsWhitespace x = false)) := by
    intro cat d hcat hd ha hb ht
    have hr := hrun cat d hcat hd ha hb ht
    constructor
    · intro msg hmsg
      rw [hr, hmsg]
    · intro hnone
      rw [hnone] at hr
      refine ⟨newComplaint studentId cat body.subCategory (jsTrim d) now, ?_, ?_, rfl, rfl,
        rfl, rfl, trim_chars_spec jsWhitespace d.toList⟩
      · rw [hr]
      · rw [hr]
        simp only []
        rw [foldl_createNotification_complaints]
        exact saveComplaint_same _ _ _
  refine ⟨?_, h1, h2, h3, h5⟩
  constructor
  · rintro ⟨msg, hmsg⟩
    by_contra hbad
    push_neg at hbad
    obtain ⟨ha, hb, hc, hs⟩ := hbad
    have ha2 : truthy body.category = true := by simpa using ha
    obtain ⟨cat, hcat⟩ : ∃ cat, body.category = some cat := by
      cases hbc : body.category with
      | none => rw [hbc] at ha2; simp [truthy] at ha2
      | some cat => exact ⟨cat, rfl⟩
    obtain ⟨d, hd⟩ : ∃ d, body.description = some d := by
      cases hbd : body.description with
      | none => exact absurd hbd hc.1
      | some d => exact ⟨d, rfl⟩
    have ht : jsTrim d ≠ "" := hc.2 d hd
    have hb2 : ¬ (body.category = some "Maintenance" ∧ truthy body.subCategory = false) := by
      rintro ⟨hm, hsb⟩
      exact hb hm hsb
    have hnone : schema (newComplaint studentId cat body.subCategory (jsTrim d) now) =
        none := by
      cases hsc : schema (newComplaint studentId cat body.subCategory (jsTrim d) now) with
      | none => rfl
      | some m => exact absurd hsc (hs cat d m hcat hd)
    obtain ⟨c, hresp, _⟩ := (h5 cat d hcat hd ha2 hb2 ht).2 hnone
    rw [hmsg] at hresp
    cases hresp
  · intro hbad
    by_cases ha : truthy body.category = false
    · exact ⟨_, h1 ha⟩
    · have ha2 : truthy body.category = true := by simpa using ha
      by_cases hb : body.category = some "Maintenance" ∧ truthy body.subCategory = false
      · exact ⟨_, h2 ha2 hb.1 hb.2⟩
      · by_cases hc : body.description = none ∨
            ∃ d, body.description = some d ∧ jsTrim d = ""
        · exact ⟨_, h3 ha2 hb hc⟩
        · rcases hbad with h | h | h | ⟨cat, d, msg, hcat, hd, hmsg⟩
          · exact absurd h ha
          · exact absurd h hb
          · exact absurd h hc
          · have ht : jsTrim d ≠ "" := fun ht => hc (Or.inr ⟨d, hd, ht⟩)
            exact ⟨msg, (h5 cat d hcat hd ha2 hb ht).1 msg hmsg⟩

/-- The sample request of the student `s1`, under the schema that accepts
every document, is answered 201 and the stored description is "cold rice",
the description "  cold rice \n" of the request without its white space. -/
theorem createComplaint_validation_witness :
    findUser sampleUsers "s1" = some { id := "s1", name := "Asha", role := "student" } ∧
    sampleBody.description = some "  cold rice \n" ∧
    (createComplaint sampleEnv sampleSchema sampleUsers sampleWorld sampleBody "s1" "c9"
      8).2 = Response.json 201 (newComplaint "s1" "Food" none "cold rice" 8) ∧
    (∀ msg, sampleSchema (newComplaint "s1" "Food" sampleBody.subCategory
        (jsTrim "  cold rice \n") 8) = some msg →
      createComplaint sampleEnv sampleSchema sampleUsers sampleWorld sampleBody "s1" "c9" 8 =
        (sampleWorld, Response.fail 400 msg)) ∧
    (sampleSchema (newComplaint "s1" "Food" sampleBody.subCategory
        (jsTrim "  cold rice \n") 8) = none →
      ∃ c, (createComplaint sampleEnv sampleSchema sampleUsers sampleWorld sampleBody "s1"
          "c9" 8).2 = Response.json 201 c ∧
        (createComplaint sampleEnv sampleSchema sampleUsers sampleWorld sampleBody "s1"
          "c9" 8).1.complaints "c9" = some c ∧
        c.student = "s1" ∧ c.category = "Food" ∧ c.subCategory = sampleBody.subCategory ∧
        c.description = jsTrim "  cold rice \n" ∧
        ∃ pre post : List Char,
          "  cold rice \n".toList = pre ++ c.description.toList ++ post ∧
          (∀ x ∈ pre, jsWhitespace x = true) ∧ (∀ x ∈ post, jsWhitespace x = true) ∧
          (∀ x, c.description.toList.head? = some x → jsWhitespace x = false) ∧
          (∀ x, c.description.toList.getLast? = some x → jsWhitespace x = false)) :=
  ⟨by decide, rfl, by decide,
    (createComplaint_validation sampleEnv sampleSchema sampleUsers sampleWorld sampleBody
      "s1" "c9" 8 { id := "s1", name := "Asha", role := "student" } (by decide)).2.2.2.2
      "Food" "  cold rice \n" rfl rfl (by decide) (by decide) (by decide)⟩

/-! ### The user schema -/

theorem courseKey_of_other (course : Option String) (h1 : course ≠ some "B.Tech")
    (h2 : course ≠ some "Diploma") (h3 : course ≠ some "Pharmacy")
    (h4 : course ≠ some "Degree") : courseKey course = none := by
  cases course with
  | none => rfl
  | some label =>
    have e1 : (label == "B.Tech") = false := beq_false_of_ne (fun h => h1 (by rw [h]))
    have e2 : (label == "Diploma") = false := beq_false_of_ne (fun h => h2 (by rw [h]))
    have e3 : (label == "Pharmacy") = false := beq_false_of_ne (fun h => h3 (by rw [h]))
    have e4 : (label == "Degree") = false := beq_false_of_ne (fun h => h4 (by rw [h]))
    simp only [courseKey, COURSE_LABEL_TO_KEY, Option.bind, List.lookup, e1, e2, e3, e4]

/-- C21: the year validator of the user schema. For a user with role
"student" the year `v` is accepted exactly when the course is "B.Tech" or
"Pharmacy" and `1 ≤ v ≤ 4`, or the course is "Diploma" or "Degree" and
`1 ≤ v ≤ 3`; for a student with any other course label, or none, every year is
rejected; for a user whose role is not "student" every year is accepted. -/
theorem yearValidator_accepts_iff (role : String) (course : Option String) (v : ℚ) :
    (role = "student" →
      (yearValidator role course v = true ↔
        ((course = some "B.Tech" ∨ course = some "Pharmacy") ∧ 1 ≤ v ∧ v ≤ 4) ∨
        ((course = some "Diploma" ∨ course = some "Degree") ∧ 1 ≤ v ∧ v ≤ 3))) ∧
    (role = "student" → course ≠ some "B.Tech" → course ≠ some "Pharmacy" →
      course ≠ some "Diploma" → course ≠ some "Degree" →
      yearValidator role course v = false) ∧
    (role ≠ "student" → yearValidator role course v = true) := by
  refine ⟨?_, ?_, ?_⟩
  · intro hrole
    subst hrole
    by_cases h1 : course = some "B.Tech"
    · subst h1
      simp [yearValidator, courseKey, COURSE_LABEL_TO_KEY, List.lookup]
    · by_cases h2 : course = some "Diploma"
      · subst h2
        simp [yearValidator, courseKey, COURSE_LABEL_TO_KEY, List.lookup]
      · by_cases h3 : course = some "Pharmacy"
        · subst h3
          simp [yearValidator, courseKey, COURSE_LABEL_TO_KEY, List.lookup]
        · by_cases h4 : course = some "Degree"
          · subst h4
            simp [yearValidator, courseKey, COURSE_LABEL_TO_KEY, List.lookup]
          · simp [yearValidator, courseKey_of_other course h1 h2 h3 h4, h1, h2, h3, h4]
  · intro hrole h1 h3 h2 h4
    subst hrole
    simp [yearValidator, courseKey_of_other course h1 h2 h3 h4]
  · intro hrole
    simp [yearValidator, hrole]

end HCM
